import Mathlib

/-!
Verification development for the tiny-udt wire codec (src/packet.rs) and
the timing windows (src/window.rs).

Modelling conventions.  Byte buffers are lists of naturals whose entries
are bytes (below 256 whenever they come from a serializer); u32 values
are naturals, reduced modulo 2 ^ 32 where the code truncates; i32 values
are integers.  Rust functions that mutate a caller supplied buffer are
modelled by returning the final buffer content together with the
reported number of written bytes (`none` models the Rust return value
`None`).  Durations are naturals counting microseconds, which is the
granularity every estimator in window.rs reads them at.  The two
floating point expressions in window.rs are modelled by exact rational
arithmetic, with the final `as u64` cast truncating toward zero and
saturating (`1e6 / 0.0 = inf` saturates to the maximal u64, `0.0 / 0.0`
is NaN and casts to 0).
-/

namespace TinyUdt

/-- Constant `UDT_VERSION` from packet.rs. -/
def UDT_VERSION : Nat := 4

/-- Constant `HANDSHAKE_SIZE` from packet.rs. -/
def HANDSHAKE_SIZE : Nat := 48

/-- Constant `ACK_SMALL_SIZE` from packet.rs. -/
def ACK_SMALL_SIZE : Nat := 4

/-- Constant `ACK_MEDIUM_SIZE` from packet.rs. -/
def ACK_MEDIUM_SIZE : Nat := ACK_SMALL_SIZE + 12

/-- Constant `ACK_BIG_SIZE` from packet.rs. -/
def ACK_BIG_SIZE : Nat := ACK_MEDIUM_SIZE + 8

/-- Constant `NAK_SMALL_SIZE` from packet.rs. -/
def NAK_SMALL_SIZE : Nat := 4

/-- Constant `NAK_BIG_SIZE` from packet.rs. -/
def NAK_BIG_SIZE : Nat := 8

/-- Constant `MDR_SIZE` from packet.rs. -/
def MDR_SIZE : Nat := 8

/-- Little endian byte encoding of a u32 value, as in `u32::to_le_bytes`. -/
def u32ToLe (x : Nat) : List Nat :=
  [x % 256, x / 256 % 256, x / 65536 % 256, x / 16777216 % 256]

/-- Reassemble a u32 from four little endian bytes, as in `u32::from_le_bytes`. -/
def leToU32 (b0 b1 b2 b3 : Nat) : Nat :=
  b0 + 256 * b1 + 65536 * b2 + 16777216 * b3

/-- Little endian byte encoding of an i32 value (two's-complement), as in
`i32::to_le_bytes`. -/
def i32ToLe (x : Int) : List Nat :=
  u32ToLe (x.emod 4294967296).toNat

/-- Reassemble an i32 from four little endian bytes, as in `i32::from_le_bytes`. -/
def leToI32 (b0 b1 b2 b3 : Nat) : Int :=
  let n := leToU32 b0 b1 b2 b3
  if n < 2147483648 then (n : Int) else (n : Int) - 4294967296

/-- Model of `buffer[off..off + bytes.len()].copy_from_slice(bytes)`. -/
def writeBytes (buf : List Nat) (off : Nat) (bytes : List Nat) : List Nat :=
  buf.take off ++ bytes ++ buf.drop (off + bytes.length)

/-- Read one byte of the buffer, `buffer[i]` (deserializers check the length
before indexing, so the out of bounds default is never reached there). -/
def byteAt (buf : List Nat) (i : Nat) : Nat := buf.getD i 0

/-- Model of `u32::from_le_bytes([buffer[off], .., buffer[off + 3]])`. -/
def readU32 (buf : List Nat) (off : Nat) : Nat :=
  leToU32 (byteAt buf off) (byteAt buf (off + 1)) (byteAt buf (off + 2))
    (byteAt buf (off + 3))

/-- Model of `i32::from_le_bytes([buffer[off], .., buffer[off + 3]])`. -/
def readI32 (buf : List Nat) (off : Nat) : Int :=
  leToI32 (byteAt buf off) (byteAt buf (off + 1)) (byteAt buf (off + 2))
    (byteAt buf (off + 3))

/-- Enum `SocketType` from packet.rs. -/
inductive SocketType where
  | Stream
  | Datagram
deriving DecidableEq

/-- Struct `MessageDropRequestControlInfo` from packet.rs. -/
structure MessageDropRequestControlInfo where
  first_seq_no : Nat
  last_seq_no : Nat
deriving DecidableEq

/-- `MessageDropRequestControlInfo::serialize`. -/
def MessageDropRequestControlInfo.serialize (x : MessageDropRequestControlInfo)
    (buffer : List Nat) : List Nat × Option Nat :=
  if buffer.length < MDR_SIZE then (buffer, none)
  else
    let buffer := writeBytes buffer 0 (u32ToLe x.first_seq_no)
    let buffer := writeBytes buffer 4 (u32ToLe x.last_seq_no)
    (buffer, some MDR_SIZE)

/-- `MessageDropRequestControlInfo::deserialize`. -/
def MessageDropRequestControlInfo.deserialize (buffer : List Nat) :
    Option MessageDropRequestControlInfo :=
  if buffer.length ≠ MDR_SIZE then none
  else
    some { first_seq_no := readU32 buffer 0, last_seq_no := readU32 buffer 4 }

/-- Enum `NakControlInfo` from packet.rs (`Multiple` carries `loss_data: [u32; 2]`,
modelled as the two words). -/
inductive NakControlInfo where
  | Single (seq_no : Nat)
  | Multiple (loss0 loss1 : Nat)
deriving DecidableEq

/-- `NakControlInfo::serialize`. -/
def NakControlInfo.serialize (x : NakControlInfo) (buffer : List Nat) :
    List Nat × Option Nat :=
  match x with
  | .Single seq_no =>
    if NAK_SMALL_SIZE ≤ buffer.length then
      (writeBytes buffer 0 (u32ToLe seq_no), some NAK_SMALL_SIZE)
    else (buffer, none)
  | .Multiple loss0 loss1 =>
    if NAK_BIG_SIZE ≤ buffer.length then
      (writeBytes (writeBytes buffer 0 (u32ToLe loss0)) 4 (u32ToLe loss1),
        some NAK_BIG_SIZE)
    else (buffer, none)

/-- `NakControlInfo::deserialize`. -/
def NakControlInfo.deserialize (buffer : List Nat) : Option NakControlInfo :=
  if buffer.length = NAK_BIG_SIZE then
    some (.Multiple (readU32 buffer 0) (readU32 buffer 4))
  else if buffer.length = NAK_SMALL_SIZE then
    some (.Single (readU32 buffer 0))
  else none

/-- Struct `AckAdditionalInfo` from packet.rs. -/
structure AckAdditionalInfo where
  rtt : Nat
  rtt_var : Nat
  buffer_size : Nat
  speed_and_bandwidth : Option (Nat × Nat)
deriving DecidableEq

/-- Struct `AckControlInfo` from packet.rs. -/
structure AckControlInfo where
  received_last_ack : Nat
  info : Option AckAdditionalInfo
deriving DecidableEq

/-- `AckControlInfo::serialize`.  The source keeps growing `total_size` to the
next tier and rechecks the buffer length before each additional block of
writes; on a failed recheck it returns `None` with the already written bytes
left in the buffer. -/
def AckControlInfo.serialize (x : AckControlInfo) (buffer : List Nat) :
    List Nat × Option Nat :=
  if buffer.length < ACK_SMALL_SIZE then (buffer, none)
  else
    let buffer := writeBytes buffer 0 (u32ToLe x.received_last_ack)
    match x.info with
    | none => (buffer, some ACK_SMALL_SIZE)
    | some info =>
      if buffer.length < ACK_MEDIUM_SIZE then (buffer, none)
      else
        let buffer := writeBytes buffer 4 (u32ToLe info.rtt)
        let buffer := writeBytes buffer 8 (u32ToLe info.rtt_var)
        let buffer := writeBytes buffer 12 (u32ToLe info.buffer_size)
        match info.speed_and_bandwidth with
        | none => (buffer, some ACK_MEDIUM_SIZE)
        | some (speed, bandwidth) =>
          if buffer.length < ACK_BIG_SIZE then (buffer, none)
          else
            let buffer := writeBytes buffer 16 (u32ToLe speed)
            let buffer := writeBytes buffer 20 (u32ToLe bandwidth)
            (buffer, some ACK_BIG_SIZE)

/-- `AckControlInfo::deserialize`. -/
def AckControlInfo.deserialize (buffer : List Nat) : Option AckControlInfo :=
  if buffer.length < ACK_SMALL_SIZE then none
  else
    let received_last_ack := readU32 buffer 0
    if buffer.length = ACK_SMALL_SIZE then
      some { received_last_ack, info := none }
    else if buffer.length = ACK_MEDIUM_SIZE ∨ buffer.length = ACK_BIG_SIZE then
      let speed_and_bandwidth :=
        if buffer.length = ACK_BIG_SIZE then
          some (readU32 buffer 16, readU32 buffer 20)
        else none
      some { received_last_ack,
             info := some { rtt := readU32 buffer 4,
                            rtt_var := readU32 buffer 8,
                            buffer_size := readU32 buffer 12,
                            speed_and_bandwidth } }
    else none

/-- Struct `HandshakeControlInfo` from packet.rs (the `ip: [u32; 4]` array is
modelled as four fields). -/
structure HandshakeControlInfo where
  socket_type : SocketType
  isn : Nat
  mss : Nat
  flight_flag_size : Nat
  request_type : Int
  id : Nat
  cookie : Nat
  ip0 : Nat
  ip1 : Nat
  ip2 : Nat
  ip3 : Nat
deriving DecidableEq

/-- The byte written for a socket type in `HandshakeControlInfo::serialize`. -/
def socketTypeByte : SocketType → Nat
  | .Stream => 1
  | .Datagram => 2

/-- `HandshakeControlInfo::serialize`. -/
def HandshakeControlInfo.serialize (x : HandshakeControlInfo)
    (buffer : List Nat) : List Nat × Option Nat :=
  if buffer.length < HANDSHAKE_SIZE then (buffer, none)
  else
    let buffer := writeBytes buffer 0 [UDT_VERSION, 0, 0, 0]
    let buffer := writeBytes buffer 4 [socketTypeByte x.socket_type, 0, 0, 0]
    let buffer := writeBytes buffer 8 (u32ToLe x.isn)
    let buffer := writeBytes buffer 12 (u32ToLe x.mss)
    let buffer := writeBytes buffer 16 (u32ToLe x.flight_flag_size)
    let buffer := writeBytes buffer 20 (i32ToLe x.request_type)
    let buffer := writeBytes buffer 24 (u32ToLe x.id)
    let buffer := writeBytes buffer 28 (u32ToLe x.cookie)
    let buffer := writeBytes buffer 32 (u32ToLe x.ip0)
    let buffer := writeBytes buffer 36 (u32ToLe x.ip1)
    let buffer := writeBytes buffer 40 (u32ToLe x.ip2)
    let buffer := writeBytes buffer 44 (u32ToLe x.ip3)
    (buffer, some HANDSHAKE_SIZE)

/-- `HandshakeControlInfo::deserialize`.  Note that the source only checks
`buffer.len() < HANDSHAKE_SIZE`, so longer buffers are accepted. -/
def HandshakeControlInfo.deserialize (buffer : List Nat) :
    Option HandshakeControlInfo :=
  if buffer.length < HANDSHAKE_SIZE then none
  else if byteAt buffer 0 ≠ UDT_VERSION then none
  else
    let st : Option SocketType :=
      if byteAt buffer 4 = 1 then some .Stream
      else if byteAt buffer 4 = 2 then some .Datagram
      else none
    match st with
    | none => none
    | some socket_type =>
      some { socket_type,
             isn := readU32 buffer 8,
             mss := readU32 buffer 12,
             flight_flag_size := readU32 buffer 16,
             request_type := readI32 buffer 20,
             id := readU32 buffer 24,
             cookie := readU32 buffer 28,
             ip0 := readU32 buffer 32,
             ip1 := readU32 buffer 36,
             ip2 := readU32 buffer 40,
             ip3 := readU32 buffer 44 }

def hsBytes (x : HandshakeControlInfo) : List Nat :=
  [UDT_VERSION, 0, 0, 0] ++ [socketTypeByte x.socket_type, 0, 0, 0] ++
  u32ToLe x.isn ++ u32ToLe x.mss ++ u32ToLe x.flight_flag_size ++
  i32ToLe x.request_type ++ u32ToLe x.id ++ u32ToLe x.cookie ++
  u32ToLe x.ip0 ++ u32ToLe x.ip1 ++ u32ToLe x.ip2 ++ u32ToLe x.ip3

def HandshakeControlInfo.wf (x : HandshakeControlInfo) : Prop :=
  x.isn < 4294967296 ∧ x.mss < 4294967296 ∧ x.flight_flag_size < 4294967296 ∧
  -2147483648 ≤ x.request_type ∧ x.request_type < 2147483648 ∧
  x.id < 4294967296 ∧ x.cookie < 4294967296 ∧ x.ip0 < 4294967296 ∧
  x.ip1 < 4294967296 ∧ x.ip2 < 4294967296 ∧ x.ip3 < 4294967296

def mdrBytes (x : MessageDropRequestControlInfo) : List Nat :=
  u32ToLe x.first_seq_no ++ u32ToLe x.last_seq_no

def MessageDropRequestControlInfo.wf (x : MessageDropRequestControlInfo) : Prop :=
  x.first_seq_no < 4294967296 ∧ x.last_seq_no < 4294967296

def nakBytes (x : NakControlInfo) : List Nat :=
  match x with
  | .Single seq_no => u32ToLe seq_no
  | .Multiple loss0 loss1 => u32ToLe loss0 ++ u32ToLe loss1

def NakControlInfo.requiredSize (x : NakControlInfo) : Nat :=
  match x with
  | .Single _ => NAK_SMALL_SIZE
  | .Multiple _ _ => NAK_BIG_SIZE

def NakControlInfo.wf : NakControlInfo → Prop
  | .Single seq_no => seq_no < 4294967296
  | .Multiple loss0 loss1 => loss0 < 4294967296 ∧ loss1 < 4294967296

def ackBytes (x : AckControlInfo) : List Nat :=
  u32ToLe x.received_last_ack ++
    match x.info with
    | none => []
    | some info =>
      u32ToLe info.rtt ++ u32ToLe info.rtt_var ++ u32ToLe info.buffer_size ++
        match info.speed_and_bandwidth with
        | none => []
        | some (speed, bandwidth) => u32ToLe speed ++ u32ToLe bandwidth

/-- Wire size of the smallest tier consistent with which optional fields of an
ACK payload are populated (stated from the spec wording; the encoder is proved
to report exactly this size). -/
def AckControlInfo.requiredSize (x : AckControlInfo) : Nat :=
  match x.info with
  | none => ACK_SMALL_SIZE
  | some info =>
    match info.speed_and_bandwidth with
    | none => ACK_MEDIUM_SIZE
    | some _ => ACK_BIG_SIZE

def AckControlInfo.wf (x : AckControlInfo) : Prop :=
  x.received_last_ack < 4294967296 ∧
  match x.info with
  | none => True
  | some i =>
    i.rtt < 4294967296 ∧ i.rtt_var < 4294967296 ∧ i.buffer_size < 4294967296 ∧
    match i.speed_and_bandwidth with
    | none => True
    | some (sp, bw) => sp < 4294967296 ∧ bw < 4294967296

/-- Item stored in the ACK window, window.rs struct `AckWindowItem`
(instants are abstract nonnegative time values). -/
structure AckWindowItem where
  timestamp : Nat
  seq_no : Int
  data_seq_no : Int
deriving DecidableEq

/-- Out of bounds placeholder for modelling `get_unchecked`; every proved
invariant keeps the real accesses in bounds. -/
def junkItem : AckWindowItem := ⟨0, 0, 0⟩

/-- Result of a successful `AckWindow::acknowledge`, window.rs struct
`Acknowledgement` (the RTT duration in abstract time units). -/
structure Acknowledgement where
  data_seq_no : Int
  rtt : Nat
deriving DecidableEq

/-- `AckWindowItem::make_ack`; `saturating_duration_since` is natural
subtraction. -/
def AckWindowItem.make_ack (item : AckWindowItem) (now : Nat) :
    Acknowledgement :=
  ⟨item.data_seq_no, now - item.timestamp⟩

/-- State of window.rs `AckWindow<SIZE>`; the const generic SIZE is carried as
a field. -/
structure AckWindow where
  size : Nat
  items : List AckWindowItem
  head : Nat
  tail : Nat
deriving DecidableEq

/-- `AckWindow::new`: SIZE default items, then `items[0].seq_no = -1`. -/
def AckWindow.new (SIZE : Nat) (now : Nat) : AckWindow :=
  { size := SIZE,
    items := (List.replicate SIZE ⟨now, 0, 0⟩).set 0 ⟨now, -1, 0⟩,
    head := 0,
    tail := 0 }

/-- `AckWindow::store`. -/
def AckWindow.store (w : AckWindow) (now : Nat) (seq_no data_seq_no : Int) :
    AckWindow :=
  let items := w.items.set w.head ⟨now, seq_no, data_seq_no⟩
  let head := (w.head + 1) % w.size
  if head = w.tail then
    { w with items := items, head := head, tail := (w.tail + 1) % w.size }
  else
    { w with items := items, head := head }

/-- `AckWindow::bump_or_reset`; in the reset branch only the seq_no of slot 0
is overwritten, as in the source. -/
def AckWindow.bump_or_reset (w : AckWindow) (i : Nat) : AckWindow :=
  if i + 1 = w.head then
    let slot0 := w.items.getD 0 junkItem
    { w with
      head := 0,
      tail := 0,
      items := w.items.set 0 ⟨slot0.timestamp, -1, slot0.data_seq_no⟩ }
  else
    { w with tail := (i + 1) % w.size }

/-- `AckWindow::acknowledge`: scan the live range for the first matching
seq_no; the wrapped branch iterates the virtual range `tail..head + SIZE` and
passes the unreduced loop index to `bump_or_reset`, as in the source. -/
def AckWindow.acknowledge (w : AckWindow) (now : Nat) (seq_no : Int) :
    Option Acknowledgement × AckWindow :=
  if w.tail ≤ w.head then
    match (List.range' w.tail (w.head - w.tail)).find?
        (fun i => (w.items.getD i junkItem).seq_no == seq_no) with
    | some i =>
      (some ((w.items.getD i junkItem).make_ack now), w.bump_or_reset i)
    | none => (none, w)
  else
    match (List.range' w.tail (w.head + w.size - w.tail)).find?
        (fun i => (w.items.getD (i % w.size) junkItem).seq_no == seq_no) with
    | some i =>
      (some ((w.items.getD (i % w.size) junkItem).make_ack now),
        w.bump_or_reset i)
    | none => (none, w)

/-- Number of live items of the window, i.e. the length of the circular range
from tail to head. -/
def AckWindow.liveLen (w : AckWindow) : Nat :=
  (w.head + w.size - w.tail) % w.size

/-- Sequence numbers of the live items, oldest first. -/
def AckWindow.liveSeqs (w : AckWindow) : List Int :=
  (List.range w.liveLen).map
    (fun j => (w.items.getD ((w.tail + j) % w.size) junkItem).seq_no)

/-- Index invariant of an ACK window: positive capacity, the backing vector
keeps its construction length, and both cursors stay below the capacity. -/
def AckWindow.WF (w : AckWindow) : Prop :=
  1 ≤ w.size ∧ w.items.length = w.size ∧ w.head < w.size ∧ w.tail < w.size

/-- Fold every entry of a list into the window, window.rs `store` iterated. -/
def AckWindow.storeAll (w : AckWindow) (now : Nat)
    (entries : List (Int × Int)) : AckWindow :=
  entries.foldl (fun w e => w.store now e.1 e.2) w

/-- State of window.rs `PacketTimeWindow<ARRIVAL_SIZE, PROBE_SIZE>`; the const
generics are carried as fields, durations and instants count microseconds. -/
structure PacketTimeWindow where
  arrivalSize : Nat
  probeSize : Nat
  packet_window : List Nat
  packet_window_index : Nat
  probe_window : List Nat
  probe_window_index : Nat
  last_sent_time : Nat
  min_packet_sending_interval : Nat
  last_arrival_time : Nat
  current_arrival_time : Nat
  probe_time : Nat
deriving DecidableEq

/-- `PacketTimeWindow::new`: packet window slots start at one second
(1000000 us), probe window slots at one millisecond (1000 us); the minimum
sending interval starts at `Duration::default()`, which is zero. -/
def PacketTimeWindow.new (ARRIVAL_SIZE PROBE_SIZE : Nat) (now : Nat) :
    PacketTimeWindow :=
  { arrivalSize := ARRIVAL_SIZE,
    probeSize := PROBE_SIZE,
    packet_window := List.replicate ARRIVAL_SIZE 1000000,
    packet_window_index := 0,
    probe_window := List.replicate PROBE_SIZE 1000,
    probe_window_index := 0,
    last_sent_time := now,
    min_packet_sending_interval := 0,
    last_arrival_time := now,
    current_arrival_time := now,
    probe_time := now }

/-- `PacketTimeWindow::on_packet_sent`; `saturating_duration_since` is natural
subtraction. -/
def PacketTimeWindow.on_packet_sent (w : PacketTimeWindow)
    (current_time : Nat) : PacketTimeWindow :=
  let interval := current_time - w.last_sent_time
  let w :=
    if interval < w.min_packet_sending_interval ∧ interval ≠ 0 then
      { w with min_packet_sending_interval := interval }
    else w
  { w with last_sent_time := current_time }

/-- `PacketTimeWindow::on_packet_arrival`. -/
def PacketTimeWindow.on_packet_arrival (w : PacketTimeWindow) (now : Nat) :
    PacketTimeWindow :=
  { w with
    current_arrival_time := now,
    packet_window :=
      w.packet_window.set w.packet_window_index (now - w.last_arrival_time),
    packet_window_index := (w.packet_window_index + 1) % w.arrivalSize,
    last_arrival_time := now }

/-- `PacketTimeWindow::probe1_arrival`. -/
def PacketTimeWindow.probe1_arrival (w : PacketTimeWindow) (now : Nat) :
    PacketTimeWindow :=
  { w with probe_time := now }

/-- `PacketTimeWindow::probe2_arrival`. -/
def PacketTimeWindow.probe2_arrival (w : PacketTimeWindow) (now : Nat) :
    PacketTimeWindow :=
  { w with
    current_arrival_time := now,
    probe_window :=
      w.probe_window.set w.probe_window_index (now - w.probe_time),
    probe_window_index := (w.probe_window_index + 1) % w.probeSize }

/-- Largest u64 value. -/
def U64_MAX : Nat := 18446744073709551615

/-- Modulus of u64 arithmetic. -/
def U64_MOD : Nat := 18446744073709551616

/-- Model of `(1000000.0f64 / average) as u64` with
`average = total as f64 / count as f64`, in exact rational arithmetic: for
positive total it truncates 1000000 * count / total; for total = 0 and
positive count the average is zero, the division gives infinity and the cast
saturates; for count = total = 0 the result is NaN, which casts to 0. -/
def rateCast (total count : Nat) : Nat :=
  if total = 0 then (if count = 0 then 0 else U64_MAX)
  else min U64_MAX (1000000 * count / total)

/-- The filtering loop shared by both estimators: count the samples inside
[lower, upper) and accumulate their sum with wrapping u64 addition, starting
from the given accumulator. -/
def bandFold (window : List Nat) (lower upper : Nat) (init : Nat × Nat) :
    Nat × Nat :=
  window.foldl
    (fun acc d =>
      if lower ≤ d ∧ d < upper then (acc.1 + 1, (acc.2 + d) % U64_MOD)
      else acc)
    init

/-- `PacketTimeWindow::get_packet_receive_speed`.  `select_nth_unstable (k)`
returns the k-th order statistic, i.e. position k of the sorted window;
`median << 3` is u64 shift; the sort is modelled by insertion sort, whose
result is the unique sorted permutation. -/
def PacketTimeWindow.get_packet_receive_speed (w : PacketTimeWindow) : Nat :=
  let median :=
    (List.insertionSort (· ≤ ·) w.packet_window).getD (w.arrivalSize / 2) 0
  let lower := median / 8
  let upper := median * 8 % U64_MOD
  let fold := bandFold w.packet_window lower upper (0, 0)
  if fold.1 > w.arrivalSize / 2 then rateCast fold.2 fold.1 else 0

/-- `PacketTimeWindow::get_bandwidth`: identical filter, but count starts at 1
and the total starts at the median (so the median sample is always retained
once more), and the estimate is returned without any quorum check. -/
def PacketTimeWindow.get_bandwidth (w : PacketTimeWindow) : Nat :=
  let median :=
    (List.insertionSort (· ≤ ·) w.probe_window).getD (w.probeSize / 2) 0
  let lower := median / 8
  let upper := median * 8 % U64_MOD
  let fold := bandFold w.probe_window lower upper (1, median)
  rateCast fold.2 fold.1

/-- One-slot probe window whose only sample is a two second gap. -/
def probeWindowSlow : PacketTimeWindow :=
  ⟨1, 1, [1000000], 0, [2000000], 0, 0, 0, 0, 0, 0⟩

/-- Median used by both estimators, stated as the spec does: the entry at the
given position of the sorted window. -/
def medianAt (window : List Nat) (k : Nat) : Nat :=
  (List.insertionSort (· ≤ ·) window).getD k 0

/-- The samples retained by the band filter, stated as the spec does: the
samples lying in [median / 8, median * 8). -/
def retainedSamples (window : List Nat) (median : Nat) : List Nat :=
  window.filter (fun d => decide (median / 8 ≤ d ∧ d < median * 8))

/-- Two-slot packet window with both inter arrival samples equal to 6 us. -/
def speedWindowSix : PacketTimeWindow :=
  ⟨2, 1, [6, 6], 0, [1000], 0, 0, 0, 0, 0, 0⟩

/-- Two-slot packet window with both samples equal to 4 us. -/
def speedWindowFour : PacketTimeWindow :=
  ⟨2, 1, [4, 4], 0, [1000], 0, 0, 0, 0, 0, 0⟩

/-- One-slot probe window with a 100 us probe gap. -/
def probeWindowFast : PacketTimeWindow :=
  ⟨1, 1, [1000000], 0, [100], 0, 0, 0, 0, 0, 0⟩

/-- Index invariant of a packet time window: positive capacities, both backing
vectors keep their construction lengths, and both cursors stay below their
capacities. -/
def PacketTimeWindow.WF (w : PacketTimeWindow) : Prop :=
  1 ≤ w.arrivalSize ∧ 1 ≤ w.probeSize ∧
  w.packet_window.length = w.arrivalSize ∧
  w.probe_window.length = w.probeSize ∧
  w.packet_window_index < w.arrivalSize ∧
  w.probe_window_index < w.probeSize

/-- The SIZE 3 window after storing four ACKs: head = 1, tail = 2, a wrapped
state whose most recent live item carries seq_no 4 and data_seq_no 104. -/
def wrappedAckWindow : AckWindow :=
  ((((AckWindow.new 3 0).store 0 1 101).store 0 2 102).store 0 3 103).store
    0 4 104

theorem u32ToLe_length (x : Nat) : (u32ToLe x).length = 4 := rfl

theorem writeBytes_length (buf : List Nat) (off : Nat) (bytes : List Nat)
    (h : off + bytes.length ≤ buf.length) :
    (writeBytes buf off bytes).length = buf.length := by
  simp [writeBytes]
  omega

theorem writeBytes_zero (buf chunk : List Nat) :
    writeBytes buf 0 chunk = chunk ++ buf.drop chunk.length := by
  simp [writeBytes]

theorem writeBytes_at (done rest chunk : List Nat) (off : Nat)
    (hoff : off = done.length) :
    writeBytes (done ++ rest) off chunk =
      (done ++ chunk) ++ rest.drop chunk.length := by
  subst hoff
  simp [writeBytes, List.take_left, List.drop_append]

theorem i32ToLe_length (x : Int) : (i32ToLe x).length = 4 := rfl

theorem byteAt_cons_succ (a : Nat) (l : List Nat) (i : Nat) :
    byteAt (a :: l) (i + 1) = byteAt l i := rfl

theorem readU32_skip4 (a b c d : Nat) (l : List Nat) (off : Nat) :
    readU32 (a :: b :: c :: d :: l) (off + 4) = readU32 l off := rfl

theorem hsSerialize_eq (x : HandshakeControlInfo) (buffer : List Nat)
    (h : HANDSHAKE_SIZE ≤ buffer.length) :
    x.serialize buffer = (hsBytes x ++ buffer.drop 48, some HANDSHAKE_SIZE) := by
  rw [HandshakeControlInfo.serialize, if_neg (by omega)]
  dsimp only
  rw [writeBytes_zero]
  rw [writeBytes_at _ _ _ 4 (by simp)]
  rw [writeBytes_at _ _ _ 8 (by simp)]
  rw [writeBytes_at _ _ _ 12 (by simp [u32ToLe])]
  rw [writeBytes_at _ _ _ 16 (by simp [u32ToLe])]
  rw [writeBytes_at _ _ _ 20 (by simp [u32ToLe])]
  rw [writeBytes_at _ _ _ 24 (by simp [u32ToLe, i32ToLe])]
  rw [writeBytes_at _ _ _ 28 (by simp [u32ToLe, i32ToLe])]
  rw [writeBytes_at _ _ _ 32 (by simp [u32ToLe, i32ToLe])]
  rw [writeBytes_at _ _ _ 36 (by simp [u32ToLe, i32ToLe])]
  rw [writeBytes_at _ _ _ 40 (by simp [u32ToLe, i32ToLe])]
  rw [writeBytes_at _ _ _ 44 (by simp [u32ToLe, i32ToLe])]
  simp [hsBytes, List.append_assoc, List.drop_drop, u32ToLe_length, i32ToLe_length]

theorem hsBytes_length (x : HandshakeControlInfo) : (hsBytes x).length = 48 := rfl

theorem hs_read0 (x : HandshakeControlInfo) : byteAt (hsBytes x) 0 = UDT_VERSION := rfl

theorem hs_read4 (x : HandshakeControlInfo) :
    byteAt (hsBytes x) 4 = socketTypeByte x.socket_type := rfl

theorem hs_read_isn (x : HandshakeControlInfo) :
    readU32 (hsBytes x) 8 = x.isn % 4294967296 := by
  have e0 : byteAt (hsBytes x) 8 = x.isn % 256 := rfl
  have e1 : byteAt (hsBytes x) (8 + 1) = x.isn / 256 % 256 := rfl
  have e2 : byteAt (hsBytes x) (8 + 2) = x.isn / 65536 % 256 := rfl
  have e3 : byteAt (hsBytes x) (8 + 3) = x.isn / 16777216 % 256 := rfl
  rw [readU32, e0, e1, e2, e3, leToU32]
  omega

theorem hs_read_mss (x : HandshakeControlInfo) :
    readU32 (hsBytes x) 12 = x.mss % 4294967296 := by
  have e0 : byteAt (hsBytes x) 12 = x.mss % 256 := rfl
  have e1 : byteAt (hsBytes x) (12 + 1) = x.mss / 256 % 256 := rfl
  have e2 : byteAt (hsBytes x) (12 + 2) = x.mss / 65536 % 256 := rfl
  have e3 : byteAt (hsBytes x) (12 + 3) = x.mss / 16777216 % 256 := rfl
  rw [readU32, e0, e1, e2, e3, leToU32]
  omega

theorem hs_read_ffs (x : HandshakeControlInfo) :
    readU32 (hsBytes x) 16 = x.flight_flag_size % 4294967296 := by
  have e0 : byteAt (hsBytes x) 16 = x.flight_flag_size % 256 := rfl
  have e1 : byteAt (hsBytes x) (16 + 1) = x.flight_flag_size / 256 % 256 := rfl
  have e2 : byteAt (hsBytes x) (16 + 2) = x.flight_flag_size / 65536 % 256 := rfl
  have e3 : byteAt (hsBytes x) (16 + 3) = x.flight_flag_size / 16777216 % 256 := rfl
  rw [readU32, e0, e1, e2, e3, leToU32]
  omega

theorem hs_read_rt (x : HandshakeControlInfo)
    (hlo : -2147483648 ≤ x.request_type) (hhi : x.request_type < 2147483648) :
    readI32 (hsBytes x) 20 = x.request_type := by
  have e0 : byteAt (hsBytes x) 20 = (x.request_type.emod 4294967296).toNat % 256 := rfl
  have e1 : byteAt (hsBytes x) (20 + 1) =
      (x.request_type.emod 4294967296).toNat / 256 % 256 := rfl
  have e2 : byteAt (hsBytes x) (20 + 2) =
      (x.request_type.emod 4294967296).toNat / 65536 % 256 := rfl
  have e3 : byteAt (hsBytes x) (20 + 3) =
      (x.request_type.emod 4294967296).toNat / 16777216 % 256 := rfl
  rw [readI32, leToI32, e0, e1, e2, e3, leToU32]
  have hq : x.request_type.emod 4294967296 = x.request_type % 4294967296 := rfl
  rw [hq]
  split <;> omega

theorem hs_read_id (x : HandshakeControlInfo) :
    readU32 (hsBytes x) 24 = x.id % 4294967296 := by
  have e0 : byteAt (hsBytes x) 24 = x.id % 256 := rfl
  have e1 : byteAt (hsBytes x) (24 + 1) = x.id / 256 % 256 := rfl
  have e2 : byteAt (hsBytes x) (24 + 2) = x.id / 65536 % 256 := rfl
  have e3 : byteAt (hsBytes x) (24 + 3) = x.id / 16777216 % 256 := rfl
  rw [readU32, e0, e1, e2, e3, leToU32]
  omega

theorem hs_read_cookie (x : HandshakeControlInfo) :
    readU32 (hsBytes x) 28 = x.cookie % 4294967296 := by
  have e0 : byteAt (hsBytes x) 28 = x.cookie % 256 := rfl
  have e1 : byteAt (hsBytes x) (28 + 1) = x.cookie / 256 % 256 := rfl
  have e2 : byteAt (hsBytes x) (28 + 2) = x.cookie / 65536 % 256 := rfl
  have e3 : byteAt (hsBytes x) (28 + 3) = x.cookie / 16777216 % 256 := rfl
  rw [readU32, e0, e1, e2, e3, leToU32]
  omega

theorem hs_read_ip0 (x : HandshakeControlInfo) :
    readU32 (hsBytes x) 32 = x.ip0 % 4294967296 := by
  have e0 : byteAt (hsBytes x) 32 = x.ip0 % 256 := rfl
  have e1 : byteAt (hsBytes x) (32 + 1) = x.ip0 / 256 % 256 := rfl
  have e2 : byteAt (hsBytes x) (32 + 2) = x.ip0 / 65536 % 256 := rfl
  have e3 : byteAt (hsBytes x) (32 + 3) = x.ip0 / 16777216 % 256 := rfl
  rw [readU32, e0, e1, e2, e3, leToU32]
  omega

theorem hs_read_ip1 (x : HandshakeControlInfo) :
    readU32 (hsBytes x) 36 = x.ip1 % 4294967296 := by
  have e0 : byteAt (hsBytes x) 36 = x.ip1 % 256 := rfl
  have e1 : byteAt (hsBytes x) (36 + 1) = x.ip1 / 256 % 256 := rfl
  have e2 : byteAt (hsBytes x) (36 + 2) = x.ip1 / 65536 % 256 := rfl
  have e3 : byteAt (hsBytes x) (36 + 3) = x.ip1 / 16777216 % 256 := rfl
  rw [readU32, e0, e1, e2, e3, leToU32]
  omega

theorem hs_read_ip2 (x : HandshakeControlInfo) :
    readU32 (hsBytes x) 40 = x.ip2 % 4294967296 := by
  have e0 : byteAt (hsBytes x) 40 = x.ip2 % 256 := rfl
  have e1 : byteAt (hsBytes x) (40 + 1) = x.ip2 / 256 % 256 := rfl
  have e2 : byteAt (hsBytes x) (40 + 2) = x.ip2 / 65536 % 256 := rfl
  have e3 : byteAt (hsBytes x) (40 + 3) = x.ip2 / 16777216 % 256 := rfl
  rw [readU32, e0, e1, e2, e3, leToU32]
  omega

theorem hs_read_ip3 (x : HandshakeControlInfo) :
    readU32 (hsBytes x) 44 = x.ip3 % 4294967296 := by
  have e0 : byteAt (hsBytes x) 44 = x.ip3 % 256 := rfl
  have e1 : byteAt (hsBytes x) (44 + 1) = x.ip3 / 256 % 256 := rfl
  have e2 : byteAt (hsBytes x) (44 + 2) = x.ip3 / 65536 % 256 := rfl
  have e3 : byteAt (hsBytes x) (44 + 3) = x.ip3 / 16777216 % 256 := rfl
  rw [readU32, e0, e1, e2, e3, leToU32]
  omega

theorem hs_roundtrip (x : HandshakeControlInfo) (hwf : x.wf) :
    HandshakeControlInfo.deserialize (hsBytes x) = some x := by
  rw [HandshakeControlInfo.wf] at hwf
  obtain ⟨hisn, hmss, hffs, hlo, hhi, hid, hck, hp0, hp1, hp2, hp3⟩ := hwf
  rw [HandshakeControlInfo.deserialize]
  rw [if_neg (by rw [hsBytes_length]; decide)]
  rw [if_neg (by rw [hs_read0]; decide)]
  rw [hs_read4]
  obtain ⟨st, isn, mss, ffs, rt, sid, ck, p0, p1, p2, p3⟩ := x
  cases st <;>
  · simp only [socketTypeByte]
    norm_num
    refine ⟨?_, ?_, ?_, ?_, ?_, ?_, ?_, ?_, ?_, ?_⟩
    · rw [hs_read_isn]; dsimp only at hisn ⊢; omega
    · rw [hs_read_mss]; dsimp only at hmss ⊢; omega
    · rw [hs_read_ffs]; dsimp only at hffs ⊢; omega
    · rw [hs_read_rt _ hlo hhi]
    · rw [hs_read_id]; dsimp only at hid ⊢; omega
    · rw [hs_read_cookie]; dsimp only at hck ⊢; omega
    · rw [hs_read_ip0]; dsimp only at hp0 ⊢; omega
    · rw [hs_read_ip1]; dsimp only at hp1 ⊢; omega
    · rw [hs_read_ip2]; dsimp only at hp2 ⊢; omega
    · rw [hs_read_ip3]; dsimp only at hp3 ⊢; omega

theorem mdrSerialize_eq (x : MessageDropRequestControlInfo) (buffer : List Nat)
    (h : MDR_SIZE ≤ buffer.length) :
    x.serialize buffer = (mdrBytes x ++ buffer.drop 8, some MDR_SIZE) := by
  rw [MessageDropRequestControlInfo.serialize, if_neg (by omega)]
  dsimp only
  rw [writeBytes_zero, u32ToLe_length]
  rw [writeBytes_at _ _ _ 4 (by simp [u32ToLe])]
  rw [u32ToLe_length, List.drop_drop]
  simp [mdrBytes, List.append_assoc]

theorem mdr_read0 (x : MessageDropRequestControlInfo) :
    readU32 (mdrBytes x) 0 = x.first_seq_no % 4294967296 := by
  have e0 : byteAt (mdrBytes x) 0 = x.first_seq_no % 256 := rfl
  have e1 : byteAt (mdrBytes x) (0 + 1) = x.first_seq_no / 256 % 256 := rfl
  have e2 : byteAt (mdrBytes x) (0 + 2) = x.first_seq_no / 65536 % 256 := rfl
  have e3 : byteAt (mdrBytes x) (0 + 3) = x.first_seq_no / 16777216 % 256 := rfl
  rw [readU32, e0, e1, e2, e3, leToU32]
  omega

theorem mdr_read4 (x : MessageDropRequestControlInfo) :
    readU32 (mdrBytes x) 4 = x.last_seq_no % 4294967296 := by
  have e0 : byteAt (mdrBytes x) 4 = x.last_seq_no % 256 := rfl
  have e1 : byteAt (mdrBytes x) (4 + 1) = x.last_seq_no / 256 % 256 := rfl
  have e2 : byteAt (mdrBytes x) (4 + 2) = x.last_seq_no / 65536 % 256 := rfl
  have e3 : byteAt (mdrBytes x) (4 + 3) = x.last_seq_no / 16777216 % 256 := rfl
  rw [readU32, e0, e1, e2, e3, leToU32]
  omega

theorem mdr_roundtrip (x : MessageDropRequestControlInfo) (hwf : x.wf) :
    MessageDropRequestControlInfo.deserialize (mdrBytes x) = some x := by
  rw [MessageDropRequestControlInfo.wf] at hwf
  obtain ⟨h1, h2⟩ := hwf
  rw [MessageDropRequestControlInfo.deserialize,
    if_neg (by rw [show (mdrBytes x).length = 8 from rfl]; decide)]
  rw [mdr_read0, mdr_read4]
  obtain ⟨a, b⟩ := x
  dsimp only at h1 h2 ⊢
  rw [Nat.mod_eq_of_lt h1, Nat.mod_eq_of_lt h2]

theorem nakSerialize_eq (x : NakControlInfo) (buffer : List Nat)
    (h : x.requiredSize ≤ buffer.length) :
    x.serialize buffer =
      (nakBytes x ++ buffer.drop x.requiredSize, some x.requiredSize) := by
  cases x with
  | Single seq_no =>
    rw [NakControlInfo.serialize, if_pos (by exact h)]
    rw [writeBytes_zero, u32ToLe_length]
    rfl
  | Multiple loss0 loss1 =>
    rw [NakControlInfo.serialize, if_pos (by exact h)]
    rw [writeBytes_zero, u32ToLe_length]
    rw [writeBytes_at _ _ _ 4 (by simp [u32ToLe])]
    rw [u32ToLe_length, List.drop_drop]
    simp [nakBytes, NakControlInfo.requiredSize, List.append_assoc]
    rfl

theorem nak_roundtrip (x : NakControlInfo) (hwf : x.wf) :
    NakControlInfo.deserialize (nakBytes x) = some x := by
  cases x with
  | Single seq_no =>
    have hv : seq_no < 4294967296 := hwf
    rw [NakControlInfo.deserialize,
      if_neg (by rw [show (nakBytes (.Single seq_no)).length = 4 from rfl]; decide),
      if_pos (show (nakBytes (.Single seq_no)).length = NAK_SMALL_SIZE from rfl)]
    have e0 : readU32 (nakBytes (.Single seq_no)) 0 = seq_no % 4294967296 := by
      have f0 : byteAt (nakBytes (.Single seq_no)) 0 = seq_no % 256 := rfl
      have f1 : byteAt (nakBytes (.Single seq_no)) (0 + 1) = seq_no / 256 % 256 := rfl
      have f2 : byteAt (nakBytes (.Single seq_no)) (0 + 2) = seq_no / 65536 % 256 := rfl
      have f3 : byteAt (nakBytes (.Single seq_no)) (0 + 3) = seq_no / 16777216 % 256 := rfl
      rw [readU32, f0, f1, f2, f3, leToU32]
      omega
    rw [e0, Nat.mod_eq_of_lt hv]
  | Multiple loss0 loss1 =>
    obtain ⟨hv, hw⟩ := hwf
    rw [NakControlInfo.deserialize,
      if_pos (show (nakBytes (.Multiple loss0 loss1)).length = NAK_BIG_SIZE from rfl)]
    have e0 : readU32 (nakBytes (.Multiple loss0 loss1)) 0 = loss0 % 4294967296 := by
      have f0 : byteAt (nakBytes (.Multiple loss0 loss1)) 0 = loss0 % 256 := rfl
      have f1 : byteAt (nakBytes (.Multiple loss0 loss1)) (0 + 1) = loss0 / 256 % 256 := rfl
      have f2 : byteAt (nakBytes (.Multiple loss0 loss1)) (0 + 2) = loss0 / 65536 % 256 := rfl
      have f3 : byteAt (nakBytes (.Multiple loss0 loss1)) (0 + 3) = loss0 / 16777216 % 256 := rfl
      rw [readU32, f0, f1, f2, f3, leToU32]
      omega
    have e4 : readU32 (nakBytes (.Multiple loss0 loss1)) 4 = loss1 % 4294967296 := by
      have f0 : byteAt (nakBytes (.Multiple loss0 loss1)) 4 = loss1 % 256 := rfl
      have f1 : byteAt (nakBytes (.Multiple loss0 loss1)) (4 + 1) = loss1 / 256 % 256 := rfl
      have f2 : byteAt (nakBytes (.Multiple loss0 loss1)) (4 + 2) = loss1 / 65536 % 256 := rfl
      have f3 : byteAt (nakBytes (.Multiple loss0 loss1)) (4 + 3) = loss1 / 16777216 % 256 := rfl
      rw [readU32, f0, f1, f2, f3, leToU32]
      omega
    rw [e0, e4, Nat.mod_eq_of_lt hv, Nat.mod_eq_of_lt hw]

theorem ackSerialize_eq (x : AckControlInfo) (buffer : List Nat)
    (h : x.requiredSize ≤ buffer.length) :
    x.serialize buffer =
      (ackBytes x ++ buffer.drop x.requiredSize, some x.requiredSize) := by
  obtain ⟨rla, info⟩ := x
  cases info with
  | none =>
    rw [AckControlInfo.serialize]
    rw [if_neg (by
      rw [AckControlInfo.requiredSize] at h
      simp [ACK_SMALL_SIZE] at h ⊢
      omega)]
    dsimp only
    rw [writeBytes_zero, u32ToLe_length]
    simp [ackBytes, AckControlInfo.requiredSize, ACK_SMALL_SIZE]
  | some info =>
    obtain ⟨rtt, rtt_var, buffer_size, sab⟩ := info
    cases sab with
    | none =>
      rw [AckControlInfo.requiredSize] at h
      dsimp only at h
      rw [AckControlInfo.serialize]
      rw [if_neg (by simp [ACK_SMALL_SIZE, ACK_MEDIUM_SIZE] at h ⊢; omega)]
      dsimp only
      rw [writeBytes_zero, u32ToLe_length]
      rw [if_neg (by simp [u32ToLe, ACK_SMALL_SIZE, ACK_MEDIUM_SIZE] at h ⊢; omega)]
      rw [writeBytes_at _ _ _ 4 (by simp [u32ToLe])]
      rw [writeBytes_at _ _ _ 8 (by simp [u32ToLe])]
      rw [writeBytes_at _ _ _ 12 (by simp [u32ToLe])]
      simp [ackBytes, AckControlInfo.requiredSize, List.append_assoc,
        List.drop_drop, u32ToLe_length, ACK_SMALL_SIZE, ACK_MEDIUM_SIZE]
    | some sb =>
      obtain ⟨speed, bandwidth⟩ := sb
      rw [AckControlInfo.requiredSize] at h
      dsimp only at h
      rw [AckControlInfo.serialize]
      rw [if_neg (by simp [ACK_SMALL_SIZE, ACK_MEDIUM_SIZE, ACK_BIG_SIZE] at h ⊢; omega)]
      dsimp only
      rw [writeBytes_zero, u32ToLe_length]
      rw [if_neg (by
        simp [u32ToLe, ACK_SMALL_SIZE, ACK_MEDIUM_SIZE, ACK_BIG_SIZE] at h ⊢; omega)]
      rw [writeBytes_at _ _ _ 4 (by simp [u32ToLe])]
      rw [writeBytes_at _ _ _ 8 (by simp [u32ToLe])]
      rw [writeBytes_at _ _ _ 12 (by simp [u32ToLe])]
      rw [if_neg (by
        simp [u32ToLe, ACK_SMALL_SIZE, ACK_MEDIUM_SIZE, ACK_BIG_SIZE] at h ⊢; omega)]
      rw [writeBytes_at _ _ _ 16 (by simp [u32ToLe])]
      rw [writeBytes_at _ _ _ 20 (by simp [u32ToLe])]
      simp [ackBytes, AckControlInfo.requiredSize, List.append_assoc,
        List.drop_drop, u32ToLe_length, ACK_SMALL_SIZE, ACK_MEDIUM_SIZE,
        ACK_BIG_SIZE]

theorem ack_roundtrip (x : AckControlInfo) (hwf : x.wf) :
    AckControlInfo.deserialize (ackBytes x) = some x := by
  obtain ⟨rla, info⟩ := x
  rw [AckControlInfo.wf] at hwf
  cases info with
  | none =>
    obtain ⟨hrla, -⟩ := hwf
    rw [AckControlInfo.deserialize]
    rw [if_neg (by rw [show (ackBytes ⟨rla, none⟩).length = 4 from rfl]; decide)]
    dsimp only
    rw [if_pos (show (ackBytes ⟨rla, none⟩).length = ACK_SMALL_SIZE from rfl)]
    have e0 : readU32 (ackBytes ⟨rla, none⟩) 0 = rla % 4294967296 := by
      have f0 : byteAt (ackBytes ⟨rla, none⟩) 0 = rla % 256 := rfl
      have f1 : byteAt (ackBytes ⟨rla, none⟩) (0 + 1) = rla / 256 % 256 := rfl
      have f2 : byteAt (ackBytes ⟨rla, none⟩) (0 + 2) = rla / 65536 % 256 := rfl
      have f3 : byteAt (ackBytes ⟨rla, none⟩) (0 + 3) = rla / 16777216 % 256 := rfl
      rw [readU32, f0, f1, f2, f3, leToU32]
      omega
    rw [e0, Nat.mod_eq_of_lt (by dsimp only at hrla; exact hrla)]
  | some info =>
    obtain ⟨rtt, rtt_var, buffer_size, sab⟩ := info
    cases sab with
    | none =>
      obtain ⟨hrla, hrtt, hrv, hbs, -⟩ := hwf
      rw [AckControlInfo.deserialize]
      rw [if_neg (by
        rw [show (ackBytes ⟨rla, some ⟨rtt, rtt_var, buffer_size, none⟩⟩).length = 16
          from rfl]
        decide)]
      dsimp only
      rw [if_neg (by
        rw [show (ackBytes ⟨rla, some ⟨rtt, rtt_var, buffer_size, none⟩⟩).length = 16
          from rfl]
        decide)]
      rw [if_pos (Or.inl (show (ackBytes
        ⟨rla, some ⟨rtt, rtt_var, buffer_size, none⟩⟩).length = ACK_MEDIUM_SIZE
        from rfl))]
      rw [if_neg (by
        rw [show (ackBytes ⟨rla, some ⟨rtt, rtt_var, buffer_size, none⟩⟩).length = 16
          from rfl]
        decide)]
      have e0 : readU32 (ackBytes ⟨rla, some ⟨rtt, rtt_var, buffer_size, none⟩⟩) 0 =
          rla % 4294967296 := by
        have f0 : byteAt (ackBytes ⟨rla, some ⟨rtt, rtt_var, buffer_size, none⟩⟩) 0 =
            rla % 256 := rfl
        have f1 : byteAt (ackBytes ⟨rla, some ⟨rtt, rtt_var, buffer_size, none⟩⟩)
            (0 + 1) = rla / 256 % 256 := rfl
        have f2 : byteAt (ackBytes ⟨rla, some ⟨rtt, rtt_var, buffer_size, none⟩⟩)
            (0 + 2) = rla / 65536 % 256 := rfl
        have f3 : byteAt (ackBytes ⟨rla, some ⟨rtt, rtt_var, buffer_size, none⟩⟩)
            (0 + 3) = rla / 16777216 % 256 := rfl
        rw [readU32, f0, f1, f2, f3, leToU32]
        omega
      have e4 : readU32 (ackBytes ⟨rla, some ⟨rtt, rtt_var, buffer_size, none⟩⟩) 4 =
          rtt % 4294967296 := by
        have f0 : byteAt (ackBytes ⟨rla, some ⟨rtt, rtt_var, buffer_size, none⟩⟩) 4 =
            rtt % 256 := rfl
        have f1 : byteAt (ackBytes ⟨rla, some ⟨rtt, rtt_var, buffer_size, none⟩⟩)
            (4 + 1) = rtt / 256 % 256 := rfl
        have f2 : byteAt (ackBytes ⟨rla, some ⟨rtt, rtt_var, buffer_size, none⟩⟩)
            (4 + 2) = rtt / 65536 % 256 := rfl
        have f3 : byteAt (ackBytes ⟨rla, some ⟨rtt, rtt_var, buffer_size, none⟩⟩)
            (4 + 3) = rtt / 16777216 % 256 := rfl
        rw [readU32, f0, f1, f2, f3, leToU32]
        omega
      have e8 : readU32 (ackBytes ⟨rla, some ⟨rtt, rtt_var, buffer_size, none⟩⟩) 8 =
          rtt_var % 4294967296 := by
        have f0 : byteAt (ackBytes ⟨rla, some ⟨rtt, rtt_var, buffer_size, none⟩⟩) 8 =
            rtt_var % 256 := rfl
        have f1 : byteAt (ackBytes ⟨rla, some ⟨rtt, rtt_var, buffer_size, none⟩⟩)
            (8 + 1) = rtt_var / 256 % 256 := rfl
        have f2 : byteAt (ackBytes ⟨rla, some ⟨rtt, rtt_var, buffer_size, none⟩⟩)
            (8 + 2) = rtt_var / 65536 % 256 := rfl
        have f3 : byteAt (ackBytes ⟨rla, some ⟨rtt, rtt_var, buffer_size, none⟩⟩)
            (8 + 3) = rtt_var / 16777216 % 256 := rfl
        rw [readU32, f0, f1, f2, f3, leToU32]
        omega
      have e12 : readU32 (ackBytes ⟨rla, some ⟨rtt, rtt_var, buffer_size, none⟩⟩) 12 =
          buffer_size % 4294967296 := by
        have f0 : byteAt (ackBytes ⟨rla, some ⟨rtt, rtt_var, buffer_size, none⟩⟩) 12 =
            buffer_size % 256 := rfl
        have f1 : byteAt (ackBytes ⟨rla, some ⟨rtt, rtt_var, buffer_size, none⟩⟩)
            (12 + 1) = buffer_size / 256 % 256 := rfl
        have f2 : byteAt (ackBytes ⟨rla, some ⟨rtt, rtt_var, buffer_size, none⟩⟩)
            (12 + 2) = buffer_size / 65536 % 256 := rfl
        have f3 : byteAt (ackBytes ⟨rla, some ⟨rtt, rtt_var, buffer_size, none⟩⟩)
            (12 + 3) = buffer_size / 16777216 % 256 := rfl
        rw [readU32, f0, f1, f2, f3, leToU32]
        omega
      rw [e0, e4, e8, e12]
      dsimp only at hrla hrtt hrv hbs
      rw [Nat.mod_eq_of_lt hrla, Nat.mod_eq_of_lt hrtt, Nat.mod_eq_of_lt hrv,
        Nat.mod_eq_of_lt hbs]
    | some sb =>
      obtain ⟨speed, bandwidth⟩ := sb
      obtain ⟨hrla, hrtt, hrv, hbs, hsp, hbw⟩ := hwf
      rw [AckControlInfo.deserialize]
      rw [if_neg (by
        rw [show (ackBytes
          ⟨rla, some ⟨rtt, rtt_var, buffer_size, some (speed, bandwidth)⟩⟩).length = 24
          from rfl]
        decide)]
      dsimp only
      rw [if_neg (by
        rw [show (ackBytes
          ⟨rla, some ⟨rtt, rtt_var, buffer_size, some (speed, bandwidth)⟩⟩).length = 24
          from rfl]
        decide)]
      rw [if_pos (Or.inr (show (ackBytes
        ⟨rla, some ⟨rtt, rtt_var, buffer_size, some (speed, bandwidth)⟩⟩).length =
        ACK_BIG_SIZE from rfl))]
      rw [if_pos (show (ackBytes
        ⟨rla, some ⟨rtt, rtt_var, buffer_size, some (speed, bandwidth)⟩⟩).length =
        ACK_BIG_SIZE from rfl)]
      have e0 : readU32 (ackBytes
          ⟨rla, some ⟨rtt, rtt_var, buffer_size, some (speed, bandwidth)⟩⟩) 0 =
          rla % 4294967296 := by
        have f0 : byteAt (ackBytes
            ⟨rla, some ⟨rtt, rtt_var, buffer_size, some (speed, bandwidth)⟩⟩) 0 =
            rla % 256 := rfl
        have f1 : byteAt (ackBytes
            ⟨rla, some ⟨rtt, rtt_var, buffer_size, some (speed, bandwidth)⟩⟩) (0 + 1) =
            rla / 256 % 256 := rfl
        have f2 : byteAt (ackBytes
            ⟨rla, some ⟨rtt, rtt_var, buffer_size, some (speed, bandwidth)⟩⟩) (0 + 2) =
            rla / 65536 % 256 := rfl
        have f3 : byteAt (ackBytes
            ⟨rla, some ⟨rtt, rtt_var, buffer_size, some (speed, bandwidth)⟩⟩) (0 + 3) =
            rla / 16777216 % 256 := rfl
        rw [readU32, f0, f1, f2, f3, leToU32]
        omega
      have e4 : readU32 (ackBytes
          ⟨rla, some ⟨rtt, rtt_var, buffer_size, some (speed, bandwidth)⟩⟩) 4 =
          rtt % 4294967296 := by
        have f0 : byteAt (ackBytes
            ⟨rla, some ⟨rtt, rtt_var, buffer_size, some (speed, bandwidth)⟩⟩) 4 =
            rtt % 256 := rfl
        have f1 : byteAt (ackBytes
            ⟨rla, some ⟨rtt, rtt_var, buffer_size, some (speed, bandwidth)⟩⟩) (4 + 1) =
            rtt / 256 % 256 := rfl
        have f2 : byteAt (ackBytes
            ⟨rla, some ⟨rtt, rtt_var, buffer_size, some (speed, bandwidth)⟩⟩) (4 + 2) =
            rtt / 65536 % 256 := rfl
        have f3 : byteAt (ackBytes
            ⟨rla, some ⟨rtt, rtt_var, buffer_size, some (speed, bandwidth)⟩⟩) (4 + 3) =
            rtt / 16777216 % 256 := rfl
        rw [readU32, f0, f1, f2, f3, leToU32]
        omega
      have e8 : readU32 (ackBytes
          ⟨rla, some ⟨rtt, rtt_var, buffer_size, some (speed, bandwidth)⟩⟩) 8 =
          rtt_var % 4294967296 := by
        have f0 : byteAt (ackBytes
            ⟨rla, some ⟨rtt, rtt_var, buffer_size, some (speed, bandwidth)⟩⟩) 8 =
            rtt_var % 256 := rfl
        have f1 : byteAt (ackBytes
            ⟨rla, some ⟨rtt, rtt_var, buffer_size, some (speed, bandwidth)⟩⟩) (8 + 1) =
            rtt_var / 256 % 256 := rfl
        have f2 : byteAt (ackBytes
            ⟨rla, some ⟨rtt, rtt_var, buffer_size, some (speed, bandwidth)⟩⟩) (8 + 2) =
            rtt_var / 65536 % 256 := rfl
        have f3 : byteAt (ackBytes
            ⟨rla, some ⟨rtt, rtt_var, buffer_size, some (speed, bandwidth)⟩⟩) (8 + 3) =
            rtt_var / 16777216 % 256 := rfl
        rw [readU32, f0, f1, f2, f3, leToU32]
        omega
      have e12 : readU32 (ackBytes
          ⟨rla, some ⟨rtt, rtt_var, buffer_size, some (speed, bandwidth)⟩⟩) 12 =
          buffer_size % 4294967296 := by
        have f0 : byteAt (ackBytes
            ⟨rla, some ⟨rtt, rtt_var, buffer_size, some (speed, bandwidth)⟩⟩) 12 =
            buffer_size % 256 := rfl
        have f1 : byteAt (ackBytes
            ⟨rla, some ⟨rtt, rtt_var, buffer_size, some (speed, bandwidth)⟩⟩)
            (12 + 1) = buffer_size / 256 % 256 := rfl
        have f2 : byteAt (ackBytes
            ⟨rla, some ⟨rtt, rtt_var, buffer_size, some (speed, bandwidth)⟩⟩)
            (12 + 2) = buffer_size / 65536 % 256 := rfl
        have f3 : byteAt (ackBytes
            ⟨rla, some ⟨rtt, rtt_var, buffer_size, some (speed, bandwidth)⟩⟩)
            (12 + 3) = buffer_size / 16777216 % 256 := rfl
        rw [readU32, f0, f1, f2, f3, leToU32]
        omega
      have e16 : readU32 (ackBytes
          ⟨rla, some ⟨rtt, rtt_var, buffer_size, some (speed, bandwidth)⟩⟩) 16 =
          speed % 4294967296 := by
        have f0 : byteAt (ackBytes
            ⟨rla, some ⟨rtt, rtt_var, buffer_size, some (speed, bandwidth)⟩⟩) 16 =
            speed % 256 := rfl
        have f1 : byteAt (ackBytes
            ⟨rla, some ⟨rtt, rtt_var, buffer_size, some (speed, bandwidth)⟩⟩)
            (16 + 1) = speed / 256 % 256 := rfl
        have f2 : byteAt (ackBytes
            ⟨rla, some ⟨rtt, rtt_var, buffer_size, some (speed, bandwidth)⟩⟩)
            (16 + 2) = speed / 65536 % 256 := rfl
        have f3 : byteAt (ackBytes
            ⟨rla, some ⟨rtt, rtt_var, buffer_size, some (speed, bandwidth)⟩⟩)
            (16 + 3) = speed / 16777216 % 256 := rfl
        rw [readU32, f0, f1, f2, f3, leToU32]
        omega
      have e20 : readU32 (ackBytes
          ⟨rla, some ⟨rtt, rtt_var, buffer_size, some (speed, bandwidth)⟩⟩) 20 =
          bandwidth % 4294967296 := by
        have f0 : byteAt (ackBytes
            ⟨rla, some ⟨rtt, rtt_var, buffer_size, some (speed, bandwidth)⟩⟩) 20 =
            bandwidth % 256 := rfl
        have f1 : byteAt (ackBytes
            ⟨rla, some ⟨rtt, rtt_var, buffer_size, some (speed, bandwidth)⟩⟩)
            (20 + 1) = bandwidth / 256 % 256 := rfl
        have f2 : byteAt (ackBytes
            ⟨rla, some ⟨rtt, rtt_var, buffer_size, some (speed, bandwidth)⟩⟩)
            (20 + 2) = bandwidth / 65536 % 256 := rfl
        have f3 : byteAt (ackBytes
            ⟨rla, some ⟨rtt, rtt_var, buffer_size, some (speed, bandwidth)⟩⟩)
            (20 + 3) = bandwidth / 16777216 % 256 := rfl
        rw [readU32, f0, f1, f2, f3, leToU32]
        omega
      rw [e0, e4, e8, e12, e16, e20]
      dsimp only at hrla hrtt hrv hbs
      rw [Nat.mod_eq_of_lt hrla, Nat.mod_eq_of_lt hrtt, Nat.mod_eq_of_lt hrv,
        Nat.mod_eq_of_lt hbs, Nat.mod_eq_of_lt hsp, Nat.mod_eq_of_lt hbw]

theorem ackBytes_length (x : AckControlInfo) :
    (ackBytes x).length = x.requiredSize := by
  obtain ⟨rla, info⟩ := x
  cases info with
  | none => rfl
  | some info =>
    obtain ⟨rtt, rtt_var, buffer_size, sab⟩ := info
    cases sab with
    | none => rfl
    | some sb => obtain ⟨sp, bw⟩ := sb; rfl

theorem nakBytes_length (x : NakControlInfo) :
    (nakBytes x).length = x.requiredSize := by
  cases x <;> rfl

/-- C1: for every control-info value of each codec type (with every numeric
field inside its declared 32 bit range) and every caller buffer at least as
large as the required wire size, serialization reports the required size and
deserializing the exact returned byte slice succeeds and returns a value
structurally equal to the input. -/
theorem C1_serialize_deserialize_roundtrip :
    (∀ (x : HandshakeControlInfo) (buffer : List Nat),
      x.wf → HANDSHAKE_SIZE ≤ buffer.length →
      (x.serialize buffer).2 = some HANDSHAKE_SIZE ∧
      HandshakeControlInfo.deserialize
        ((x.serialize buffer).1.take HANDSHAKE_SIZE) = some x) ∧
    (∀ (x : AckControlInfo) (buffer : List Nat),
      x.wf → x.requiredSize ≤ buffer.length →
      (x.serialize buffer).2 = some x.requiredSize ∧
      AckControlInfo.deserialize
        ((x.serialize buffer).1.take x.requiredSize) = some x) ∧
    (∀ (x : NakControlInfo) (buffer : List Nat),
      x.wf → x.requiredSize ≤ buffer.length →
      (x.serialize buffer).2 = some x.requiredSize ∧
      NakControlInfo.deserialize
        ((x.serialize buffer).1.take x.requiredSize) = some x) ∧
    (∀ (x : MessageDropRequestControlInfo) (buffer : List Nat),
      x.wf → MDR_SIZE ≤ buffer.length →
      (x.serialize buffer).2 = some MDR_SIZE ∧
      MessageDropRequestControlInfo.deserialize
        ((x.serialize buffer).1.take MDR_SIZE) = some x) := by
  refine ⟨?_, ?_, ?_, ?_⟩
  · intro x buffer hwf hlen
    rw [hsSerialize_eq x buffer hlen]
    refine ⟨rfl, ?_⟩
    dsimp only
    rw [List.take_left' (show (hsBytes x).length = HANDSHAKE_SIZE from rfl)]
    exact hs_roundtrip x hwf
  · intro x buffer hwf hlen
    rw [ackSerialize_eq x buffer hlen]
    refine ⟨rfl, ?_⟩
    dsimp only
    rw [List.take_left' (ackBytes_length x)]
    exact ack_roundtrip x hwf
  · intro x buffer hwf hlen
    rw [nakSerialize_eq x buffer hlen]
    refine ⟨rfl, ?_⟩
    dsimp only
    rw [List.take_left' (nakBytes_length x)]
    exact nak_roundtrip x hwf
  · intro x buffer hwf hlen
    rw [mdrSerialize_eq x buffer hlen]
    refine ⟨rfl, ?_⟩
    dsimp only
    rw [List.take_left' (show (mdrBytes x).length = MDR_SIZE from rfl)]
    exact mdr_roundtrip x hwf

theorem C1_serialize_deserialize_roundtrip_witness :
    HandshakeControlInfo.deserialize
      (((⟨.Stream, 1, 2, 3, -1, 4, 5, 6, 7, 8, 9⟩ :
        HandshakeControlInfo).serialize (List.replicate 48 0)).1.take
        HANDSHAKE_SIZE) =
      some ⟨.Stream, 1, 2, 3, -1, 4, 5, 6, 7, 8, 9⟩ ∧
    AckControlInfo.deserialize
      (((⟨10, some ⟨11, 12, 13, some (14, 15)⟩⟩ :
        AckControlInfo).serialize (List.replicate 24 0)).1.take
        (⟨10, some ⟨11, 12, 13, some (14, 15)⟩⟩ : AckControlInfo).requiredSize) =
      some ⟨10, some ⟨11, 12, 13, some (14, 15)⟩⟩ ∧
    NakControlInfo.deserialize
      (((NakControlInfo.Multiple 5 10).serialize (List.replicate 8 0)).1.take
        (NakControlInfo.Multiple 5 10).requiredSize) =
      some (NakControlInfo.Multiple 5 10) ∧
    MessageDropRequestControlInfo.deserialize
      (((⟨21, 22⟩ : MessageDropRequestControlInfo).serialize
        (List.replicate 8 0)).1.take MDR_SIZE) =
      some ⟨21, 22⟩ :=
  ⟨(C1_serialize_deserialize_roundtrip.1 _ _
      (by simp only [HandshakeControlInfo.wf]; decide) (by decide)).2,
   (C1_serialize_deserialize_roundtrip.2.1 _ _
      (by simp only [AckControlInfo.wf]; decide) (by decide)).2,
   (C1_serialize_deserialize_roundtrip.2.2.1 _ _
      (by simp only [NakControlInfo.wf]; decide) (by decide)).2,
   (C1_serialize_deserialize_roundtrip.2.2.2 _ _
      (by simp only [MessageDropRequestControlInfo.wf]; decide) (by decide)).2⟩

/-- C2 counterexample: a 49 byte buffer with valid version and socket type
bytes is accepted by `HandshakeControlInfo::deserialize`, although 49 is not
48, because the source only rejects buffers shorter than `HANDSHAKE_SIZE`. -/
theorem C2_handshake_over_length_counterexample :
    (HandshakeControlInfo.deserialize
      (4 :: 0 :: 0 :: 0 :: 1 :: List.replicate 44 0)).isSome = true ∧
    (4 :: 0 :: 0 :: 0 :: 1 :: List.replicate 44 0).length = 49 := by decide

/-- C2 amended: deserialization fails for every buffer whose length is outside
the valid wire length set, where the Handshake set is every length of at least
48 (the source accepts longer buffers and ignores the trailing bytes), the Ack
set is 4, 16, 24, the Nak set is 4, 8, and the MessageDropRequest set is
exactly 8; any other length fails for every byte content. -/
theorem C2_deserialize_length_amended :
    (∀ buffer : List Nat, buffer.length < HANDSHAKE_SIZE →
      HandshakeControlInfo.deserialize buffer = none) ∧
    (∀ buffer : List Nat, buffer.length ≠ ACK_SMALL_SIZE →
      buffer.length ≠ ACK_MEDIUM_SIZE → buffer.length ≠ ACK_BIG_SIZE →
      AckControlInfo.deserialize buffer = none) ∧
    (∀ buffer : List Nat, buffer.length ≠ NAK_SMALL_SIZE →
      buffer.length ≠ NAK_BIG_SIZE → NakControlInfo.deserialize buffer = none) ∧
    (∀ buffer : List Nat, buffer.length ≠ MDR_SIZE →
      MessageDropRequestControlInfo.deserialize buffer = none) := by
  refine ⟨?_, ?_, ?_, ?_⟩
  · intro buffer h
    rw [HandshakeControlInfo.deserialize, if_pos h]
  · intro buffer h1 h2 h3
    rw [AckControlInfo.deserialize]
    split_ifs with g1 g2 g3 <;> first | rfl | tauto
  · intro buffer h1 h2
    rw [NakControlInfo.deserialize]
    split_ifs with g1 g2 <;> first | rfl | tauto
  · intro buffer h
    rw [MessageDropRequestControlInfo.deserialize, if_pos h]

theorem C2_deserialize_length_amended_witness :
    HandshakeControlInfo.deserialize [0, 0, 0] = none ∧
    AckControlInfo.deserialize [0, 0, 0] = none ∧
    NakControlInfo.deserialize [0, 0, 0] = none ∧
    MessageDropRequestControlInfo.deserialize [0, 0, 0] = none :=
  ⟨C2_deserialize_length_amended.1 [0, 0, 0] (by decide),
   C2_deserialize_length_amended.2.1 [0, 0, 0] (by decide) (by decide) (by decide),
   C2_deserialize_length_amended.2.2.1 [0, 0, 0] (by decide) (by decide),
   C2_deserialize_length_amended.2.2.2 [0, 0, 0] (by decide)⟩

/-- C8: on a 48 byte buffer, `HandshakeControlInfo::deserialize` fails exactly
when the version byte at offset 0 differs from 4 or the socket type byte at
offset 4 is neither 1 nor 2; when both are valid it succeeds, mapping byte 1 to
Stream and byte 2 to Datagram. -/
theorem C8_handshake_byte_validation (buffer : List Nat)
    (hlen : buffer.length = 48) :
    ((byteAt buffer 0 ≠ 4 ∨ (byteAt buffer 4 ≠ 1 ∧ byteAt buffer 4 ≠ 2)) →
      HandshakeControlInfo.deserialize buffer = none) ∧
    (byteAt buffer 0 = 4 → byteAt buffer 4 = 1 →
      ∃ h, HandshakeControlInfo.deserialize buffer = some h ∧
        h.socket_type = SocketType.Stream) ∧
    (byteAt buffer 0 = 4 → byteAt buffer 4 = 2 →
      ∃ h, HandshakeControlInfo.deserialize buffer = some h ∧
        h.socket_type = SocketType.Datagram) := by
  have hnot : ¬(buffer.length < HANDSHAKE_SIZE) := by
    rw [hlen]; decide
  refine ⟨?_, ?_, ?_⟩
  · intro hbad
    rw [HandshakeControlInfo.deserialize, if_neg hnot]
    by_cases hv : byteAt buffer 0 = UDT_VERSION
    · rw [if_neg (by rw [hv]; simp)]
      dsimp only
      rcases hbad with hb | ⟨h1, h2⟩
      · exact absurd hv hb
      · rw [if_neg h1, if_neg h2]
    · rw [if_pos hv]
  · intro hv h1
    rw [HandshakeControlInfo.deserialize, if_neg hnot,
      if_neg (by rw [hv]; simp [UDT_VERSION])]
    dsimp only
    rw [if_pos h1]
    exact ⟨_, rfl, rfl⟩
  · intro hv h2
    rw [HandshakeControlInfo.deserialize, if_neg hnot,
      if_neg (by rw [hv]; simp [UDT_VERSION])]
    dsimp only
    rw [if_neg (by rw [h2]; decide), if_pos h2]
    exact ⟨_, rfl, rfl⟩

theorem C8_handshake_byte_validation_witness :
    HandshakeControlInfo.deserialize (List.replicate 48 0) = none ∧
    (∃ h, HandshakeControlInfo.deserialize
        (4 :: 0 :: 0 :: 0 :: 1 :: List.replicate 43 0) = some h ∧
      h.socket_type = SocketType.Stream) ∧
    (∃ h, HandshakeControlInfo.deserialize
        (4 :: 0 :: 0 :: 0 :: 2 :: List.replicate 43 0) = some h ∧
      h.socket_type = SocketType.Datagram) :=
  ⟨(C8_handshake_byte_validation (List.replicate 48 0) (by decide)).1
      (Or.inl (by decide)),
   (C8_handshake_byte_validation (4 :: 0 :: 0 :: 0 :: 1 :: List.replicate 43 0)
      (by decide)).2.1 (by decide) (by decide),
   (C8_handshake_byte_validation (4 :: 0 :: 0 :: 0 :: 2 :: List.replicate 43 0)
      (by decide)).2.2 (by decide) (by decide)⟩

/-- C4 counterexample: encoding an ACK payload that requires the 16 byte tier
into a 4 byte buffer returns `None`, yet the cumulative-ack word has already
been copied into the caller buffer, so the buffer is modified although nothing
is reported as written. -/
theorem C4_ack_partial_write_counterexample :
    ((⟨1, some ⟨0, 0, 0, none⟩⟩ : AckControlInfo).serialize [0, 0, 0, 0]).2 =
      none ∧
    ((⟨1, some ⟨0, 0, 0, none⟩⟩ : AckControlInfo).serialize [0, 0, 0, 0]).1 ≠
      [0, 0, 0, 0] := by decide

/-- C4 amended: `AckControlInfo::serialize` picks the smallest tier consistent
with which optional fields are populated (4, 16 or 24 bytes) and fails with
`None` whenever the destination buffer is smaller than the required tier,
never reporting a smaller tier; on success no byte beyond the reported prefix
is modified.  However, on failure the words of the lower tiers that were
processed before the failing length check remain written in the caller
buffer. -/
theorem C4_ack_encode_tiering_amended (x : AckControlInfo) (buffer : List Nat) :
    (buffer.length < x.requiredSize → (x.serialize buffer).2 = none) ∧
    (x.requiredSize ≤ buffer.length →
      (x.serialize buffer).2 = some x.requiredSize ∧
      ((x.serialize buffer).1).take x.requiredSize = ackBytes x ∧
      ((x.serialize buffer).1).drop x.requiredSize = buffer.drop x.requiredSize) := by
  constructor
  · intro hlt
    obtain ⟨rla, info⟩ := x
    cases info with
    | none =>
      rw [AckControlInfo.requiredSize] at hlt
      rw [AckControlInfo.serialize, if_pos hlt]
    | some info =>
      obtain ⟨rtt, rtt_var, buffer_size, sab⟩ := info
      cases sab with
      | none =>
        rw [AckControlInfo.requiredSize] at hlt
        dsimp only at hlt
        rw [AckControlInfo.serialize]
        by_cases hsmall : buffer.length < ACK_SMALL_SIZE
        · rw [if_pos hsmall]
        · rw [if_neg hsmall]
          dsimp only
          rw [writeBytes_zero, u32ToLe_length]
          rw [if_pos (by
            simp only [List.length_append, List.length_drop, u32ToLe_length]
            simp only [ACK_SMALL_SIZE, ACK_MEDIUM_SIZE] at hsmall hlt ⊢
            omega)]
      | some sb =>
        obtain ⟨speed, bandwidth⟩ := sb
        rw [AckControlInfo.requiredSize] at hlt
        dsimp only at hlt
        rw [AckControlInfo.serialize]
        by_cases hsmall : buffer.length < ACK_SMALL_SIZE
        · rw [if_pos hsmall]
        · rw [if_neg hsmall]
          dsimp only
          rw [writeBytes_zero, u32ToLe_length]
          by_cases hmed : buffer.length < ACK_MEDIUM_SIZE
          · rw [if_pos (by
              simp only [List.length_append, List.length_drop, u32ToLe_length]
              simp only [ACK_SMALL_SIZE, ACK_MEDIUM_SIZE] at hsmall hmed ⊢
              omega)]
          · rw [if_neg (by
              simp only [List.length_append, List.length_drop, u32ToLe_length]
              simp only [ACK_SMALL_SIZE, ACK_MEDIUM_SIZE] at hsmall hmed ⊢
              omega)]
            rw [writeBytes_at _ _ _ 4 (by simp [u32ToLe])]
            rw [writeBytes_at _ _ _ 8 (by simp [u32ToLe])]
            rw [writeBytes_at _ _ _ 12 (by simp [u32ToLe])]
            rw [if_pos (by
              simp only [List.length_append, List.length_drop, u32ToLe_length,
                List.length_cons, List.length_nil, List.drop_drop]
              simp only [ACK_SMALL_SIZE, ACK_MEDIUM_SIZE, ACK_BIG_SIZE]
                at hsmall hmed hlt ⊢
              simp [u32ToLe]
              omega)]
  · intro hle
    rw [ackSerialize_eq x buffer hle]
    exact ⟨rfl, by
      dsimp only
      rw [List.take_left' (ackBytes_length x)], by
      dsimp only
      rw [List.drop_left' (ackBytes_length x)]⟩

theorem C4_ack_encode_tiering_amended_witness :
    ((⟨7, some ⟨1, 2, 3, none⟩⟩ : AckControlInfo).serialize
      (List.replicate 10 0)).2 = none ∧
    ((⟨7, some ⟨1, 2, 3, none⟩⟩ : AckControlInfo).serialize
      (List.replicate 20 0)).2 =
      some (⟨7, some ⟨1, 2, 3, none⟩⟩ : AckControlInfo).requiredSize :=
  ⟨(C4_ack_encode_tiering_amended ⟨7, some ⟨1, 2, 3, none⟩⟩
      (List.replicate 10 0)).1 (by decide),
   ((C4_ack_encode_tiering_amended ⟨7, some ⟨1, 2, 3, none⟩⟩
      (List.replicate 20 0)).2 (by decide)).1⟩

theorem on_packet_sent_min_zero (w : PacketTimeWindow) (t : Nat)
    (h : w.min_packet_sending_interval = 0) :
    (w.on_packet_sent t).min_packet_sending_interval = 0 := by
  rw [PacketTimeWindow.on_packet_sent]
  dsimp only
  rw [h]
  rw [if_neg (by omega)]
  exact h

/-- C6 (code bug in the source): the minimum sending interval starts at zero
and the update requires the new interval to be strictly smaller, so after any
sequence of `on_packet_sent` calls on a fresh window the reported minimum is
still zero instead of the minimum nonzero interval between consecutive
sends. -/
theorem C6_min_sending_interval_stuck_at_zero (a p t0 : Nat) (ts : List Nat) :
    (ts.foldl (fun w t => w.on_packet_sent t)
      (PacketTimeWindow.new a p t0)).min_packet_sending_interval = 0 := by
  have key : ∀ (l : List Nat) (w : PacketTimeWindow),
      w.min_packet_sending_interval = 0 →
      (l.foldl (fun w t => w.on_packet_sent t)
        w).min_packet_sending_interval = 0 := by
    intro l
    induction l with
    | nil => intro w h; exact h
    | cons t l ih =>
      intro w h
      exact ih _ (on_packet_sent_min_zero w t h)
  exact key ts _ rfl

/-- C3 counterexample: with one retained probe sample of 2000000 us the
average exceeds one second, `1e6 / average = 0.5` and the u64 cast truncates
it to 0, so `get_bandwidth` does return 0 on a window with a sample. -/
theorem C3_bandwidth_zero_counterexample :
    probeWindowSlow.get_bandwidth = 0 ∧
    probeWindowSlow.probe_window.length = 1 := by decide

theorem bandFold_eq (l : List Nat) (lower upper c t : Nat)
    (h : t + (l.filter (fun d => decide (lower ≤ d ∧ d < upper))).sum <
      U64_MOD) :
    bandFold l lower upper (c, t) =
      (c + (l.filter (fun d => decide (lower ≤ d ∧ d < upper))).length,
       t + (l.filter (fun d => decide (lower ≤ d ∧ d < upper))).sum) := by
  induction l generalizing c t with
  | nil => simp [bandFold]
  | cons a l ih =>
    by_cases hd : lower ≤ a ∧ a < upper
    · have hfa : (a :: l).filter (fun d => decide (lower ≤ d ∧ d < upper)) =
          a :: l.filter (fun d => decide (lower ≤ d ∧ d < upper)) := by
        simp [List.filter_cons, hd]
      rw [hfa] at h
      simp only [List.sum_cons] at h
      have hmod : (t + a) % U64_MOD = t + a := Nat.mod_eq_of_lt (by omega)
      have step : bandFold (a :: l) lower upper (c, t) =
          bandFold l lower upper (c + 1, (t + a) % U64_MOD) := by
        simp [bandFold, List.foldl_cons, hd]
      rw [step, hmod, ih (c + 1) (t + a) (by omega), hfa]
      simp only [List.length_cons, List.sum_cons, Prod.mk.injEq]
      constructor <;> omega
    · have hfa : (a :: l).filter (fun d => decide (lower ≤ d ∧ d < upper)) =
          l.filter (fun d => decide (lower ≤ d ∧ d < upper)) := by
        simp [List.filter_cons, hd]
      rw [hfa] at h
      have step : bandFold (a :: l) lower upper (c, t) =
          bandFold l lower upper (c, t) := by
        simp [bandFold, List.foldl_cons, hd]
      rw [step, ih c t (by omega), hfa]

theorem bandFold_replicate_in (k d lower upper c t : Nat)
    (hband : lower ≤ d ∧ d < upper) (hbound : t + k * d < U64_MOD) :
    bandFold (List.replicate k d) lower upper (c, t) = (c + k, t + k * d) := by
  induction k generalizing c t with
  | zero => simp [bandFold]
  | succ k ih =>
    have hrep : List.replicate (k + 1) d = d :: List.replicate k d :=
      List.replicate_succ d k
    have hmod : (t + d) % U64_MOD = t + d :=
      Nat.mod_eq_of_lt (by
        have : t + (k + 1) * d = t + (k * d + d) := by ring_nf
        omega)
    have step : bandFold (List.replicate (k + 1) d) lower upper (c, t) =
        bandFold (List.replicate k d) lower upper (c + 1, (t + d) % U64_MOD) := by
      rw [hrep]
      simp [bandFold, List.foldl_cons, hband]
    rw [step, hmod, ih (c + 1) (t + d) (by
      have : t + (k + 1) * d = t + d + k * d := by ring_nf
      omega)]
    have h1 : c + 1 + k = c + (k + 1) := by omega
    have h2 : t + d + k * d = t + (k + 1) * d := by ring_nf
    rw [h1, h2]

theorem insertionSort_replicate (n d : Nat) :
    List.insertionSort (· ≤ ·) (List.replicate n d) = List.replicate n d :=
  List.perm_replicate.mp
    ((List.perm_insertionSort (· ≤ ·) (List.replicate n d)).trans
      (List.Perm.refl _))

theorem medianAt_mem (window : List Nat) (k : Nat) (hk : k < window.length) :
    medianAt window k ∈ window := by
  rw [medianAt]
  have hlen : (List.insertionSort (· ≤ ·) window).length = window.length :=
    List.length_insertionSort (· ≤ ·) window
  have hk2 : k < (List.insertionSort (· ≤ ·) window).length := by omega
  rw [List.getD_eq_getElem?_getD, List.getElem?_eq_getElem hk2]
  exact ((List.perm_insertionSort (· ≤ ·) window).mem_iff).mp
    (List.getElem_mem hk2)

/-- C7 counterexample: with uniform 6 us samples the code computes
`(1000000.0 / 6.0) as u64 = 166666` (the cast truncates), while
`round(1000000 / 6) = 166667`. -/
theorem C7_speed_rounding_counterexample :
    speedWindowSix.packet_window = List.replicate 2 6 ∧
    (speedWindowSix.get_packet_receive_speed : ℤ) ≠
      round ((1000000 : ℚ) / 6) := by
  have h1 : speedWindowSix.get_packet_receive_speed = 166666 := by decide
  have h2 : round ((1000000 : ℚ) / 6) = 166667 := by norm_num [round_eq]
  rw [h1, h2]
  exact ⟨rfl, by decide⟩

/-- C7 amended: feeding a window of uniform samples of duration d (at least
one microsecond) makes `get_packet_receive_speed` return the truncation
1000000 / d of the exact rate, not its rounding; the bound hypotheses keep
the u64 shift and sum below the wrap. -/
theorem C7_uniform_speed_amended (n d : Nat) (w : PacketTimeWindow)
    (hn : 1 ≤ n) (hd : 1 ≤ d) (hd8 : d * 8 < U64_MOD) (hnd : n * d < U64_MOD)
    (hw : w.packet_window = List.replicate n d) (ha : w.arrivalSize = n) :
    w.get_packet_receive_speed = 1000000 / d := by
  rw [PacketTimeWindow.get_packet_receive_speed, hw, ha,
    insertionSort_replicate]
  have hmed : (List.replicate n d).getD (n / 2) 0 = d := by
    rw [List.getD_eq_getElem?_getD, List.getElem?_replicate,
      if_pos (Nat.div_lt_self (by omega) (by omega))]
    rfl
  rw [hmed]
  have hupper : d * 8 % U64_MOD = d * 8 := Nat.mod_eq_of_lt hd8
  rw [hupper]
  rw [bandFold_replicate_in n d (d / 8) (d * 8) 0 0
    ⟨Nat.div_le_self d 8, by omega⟩ (by omega)]
  rw [if_pos (by
    show n / 2 < 0 + n
    have := Nat.div_lt_self (show 0 < n by omega) (show 1 < 2 by omega)
    omega)]
  rw [rateCast, if_neg (by
    have : 1 * 1 ≤ n * d := Nat.mul_le_mul hn hd
    omega)]
  have hdiv : 1000000 * (0 + n) / (0 + n * d) = 1000000 / d := by
    have h1 : (0 : Nat) + n = n := by omega
    have h2 : (0 : Nat) + n * d = n * d := by omega
    rw [h1, h2, Nat.mul_comm n d, ← Nat.mul_div_mul_right 1000000 d (show 0 < n by omega)]
  rw [hdiv]
  exact Nat.min_eq_right (by
    have : 1000000 / d ≤ 1000000 := Nat.div_le_self _ _
    rw [U64_MAX] at *
    omega)

theorem C7_uniform_speed_amended_witness :
    speedWindowFour.get_packet_receive_speed = 1000000 / 4 :=
  C7_uniform_speed_amended 2 4 speedWindowFour (by decide) (by decide)
    (by decide) (by decide) (by decide) (by decide)

/-- C3 amended: for every probe window with at least one sample (and samples
small enough not to wrap u64 arithmetic), `get_bandwidth` unconditionally
returns the truncation of 1e6 divided by the average of the retained
samples, the retained multiset being the in-band samples plus the median
counted once more; the result is positive whenever that average is at most
one second (1000000 us), but it can be 0 for larger averages. -/
theorem C3_bandwidth_amended (w : PacketTimeWindow)
    (hlen : w.probe_window.length = w.probeSize) (hn : 1 ≤ w.probeSize)
    (hb : ∀ x ∈ w.probe_window, x ≤ 1099511627776)
    (hc : w.probeSize ≤ 1048576) :
    w.get_bandwidth =
      (if medianAt w.probe_window (w.probeSize / 2) +
          (retainedSamples w.probe_window
            (medianAt w.probe_window (w.probeSize / 2))).sum = 0
       then U64_MAX
       else 1000000 *
          (1 + (retainedSamples w.probe_window
            (medianAt w.probe_window (w.probeSize / 2))).length) /
          (medianAt w.probe_window (w.probeSize / 2) +
            (retainedSamples w.probe_window
              (medianAt w.probe_window (w.probeSize / 2))).sum)) ∧
    (medianAt w.probe_window (w.probeSize / 2) +
        (retainedSamples w.probe_window
          (medianAt w.probe_window (w.probeSize / 2))).sum ≤
      1000000 * (1 + (retainedSamples w.probe_window
        (medianAt w.probe_window (w.probeSize / 2))).length) →
      0 < w.get_bandwidth) := by
  have hmem : medianAt w.probe_window (w.probeSize / 2) ∈ w.probe_window :=
    medianAt_mem w.probe_window (w.probeSize / 2) (by
      rw [hlen]
      exact Nat.div_lt_self (by omega) (by omega))
  set med := medianAt w.probe_window (w.probeSize / 2) with hmeddef
  have hmedb : med ≤ 1099511627776 := hb med hmem
  have hsumb : (retainedSamples w.probe_window med).sum ≤
      1048576 * 1099511627776 := by
    calc (retainedSamples w.probe_window med).sum ≤
        (retainedSamples w.probe_window med).length * 1099511627776 := by
          have := List.sum_le_card_nsmul (retainedSamples w.probe_window med)
            1099511627776 (by
              intro x hx
              exact hb x (List.mem_of_mem_filter hx))
          simpa using this
      _ ≤ 1048576 * 1099511627776 := by
          have h1 : (retainedSamples w.probe_window med).length ≤
              w.probe_window.length := List.length_filter_le _ _
          have h2 : w.probe_window.length ≤ 1048576 := by omega
          exact Nat.mul_le_mul_right _ (by omega)
  have hcount : (retainedSamples w.probe_window med).length ≤ 1048576 := by
    have h1 : (retainedSamples w.probe_window med).length ≤
        w.probe_window.length := List.length_filter_le _ _
    omega
  have hunfold : w.get_bandwidth =
      rateCast (med + (retainedSamples w.probe_window med).sum)
        (1 + (retainedSamples w.probe_window med).length) := by
    rw [PacketTimeWindow.get_bandwidth]
    rw [show (List.insertionSort (fun a b => a ≤ b) w.probe_window).getD
        (w.probeSize / 2) 0 = med from rfl]
    rw [show med * 8 % U64_MOD = med * 8 from
      Nat.mod_eq_of_lt (by simp only [U64_MOD]; omega)]
    rw [bandFold_eq w.probe_window (med / 8) (med * 8) 1 med (by
      simp only [U64_MOD]
      have hss := hsumb
      rw [retainedSamples] at hss
      omega)]
    rw [retainedSamples]
  constructor
  · rw [hunfold, rateCast]
    split_ifs with h0 h1
    · omega
    · rfl
    · refine Nat.min_eq_right ?_
      have hbound : 1000000 * (1 + (retainedSamples w.probe_window med).length) /
          (med + (retainedSamples w.probe_window med).sum) ≤
          1000000 * (1 + 1048576) := by
        calc _ ≤ 1000000 * (1 + (retainedSamples w.probe_window med).length) :=
              Nat.div_le_self _ _
          _ ≤ _ := Nat.mul_le_mul_left _ (by omega)
      simp only [U64_MAX]
      omega
  · intro havg
    rw [hunfold, rateCast]
    split_ifs with h0 h1
    · omega
    · simp only [U64_MAX]
      omega
    · have htot : 0 < med + (retainedSamples w.probe_window med).sum := by
        omega
      have hone : 1 ≤ 1000000 *
          (1 + (retainedSamples w.probe_window med).length) /
          (med + (retainedSamples w.probe_window med).sum) :=
        (Nat.one_le_div_iff htot).mpr havg
      exact lt_min_iff.mpr ⟨by simp only [U64_MAX]; omega, hone⟩

theorem C3_bandwidth_amended_witness : 0 < probeWindowFast.get_bandwidth :=
  (C3_bandwidth_amended probeWindowFast (by decide) (by decide) (by decide)
    (by decide)).2 (by decide)

theorem store_WF (w : AckWindow) (now : Nat) (s d : Int) (h : w.WF) :
    (w.store now s d).WF ∧ (w.store now s d).size = w.size := by
  obtain ⟨h1, h2, h3, h4⟩ := h
  simp only [AckWindow.store]
  split_ifs with hb <;>
    exact ⟨⟨h1, by simp [List.length_set, h2], Nat.mod_lt _ (by omega),
      by first | exact Nat.mod_lt _ (by omega) | exact h4⟩, rfl⟩

theorem bump_or_reset_WF (w : AckWindow) (i : Nat) (h : w.WF) :
    (w.bump_or_reset i).WF ∧ (w.bump_or_reset i).size = w.size := by
  obtain ⟨h1, h2, h3, h4⟩ := h
  rw [AckWindow.bump_or_reset]
  split_ifs with hb
  · refine ⟨⟨h1, ?_, ?_, ?_⟩, ?_⟩ <;> simp [List.length_set, h2] <;> omega
  · exact ⟨⟨h1, h2, h3, Nat.mod_lt _ (by omega)⟩, rfl⟩

theorem acknowledge_WF (w : AckWindow) (now : Nat) (s : Int) (h : w.WF) :
    ((w.acknowledge now s).2).WF ∧ ((w.acknowledge now s).2).size = w.size := by
  rw [AckWindow.acknowledge]
  split_ifs with hb
  · rcases hf : (List.range' w.tail (w.head - w.tail)).find?
        (fun i => (w.items.getD i junkItem).seq_no == s) with _ | i
    · exact ⟨h, rfl⟩
    · exact bump_or_reset_WF w i h
  · rcases hf : (List.range' w.tail (w.head + w.size - w.tail)).find?
        (fun i => (w.items.getD (i % w.size) junkItem).seq_no == s) with _ | i
    · exact ⟨h, rfl⟩
    · exact bump_or_reset_WF w i h

/-- C10: every operation preserves the index invariants (cursors below the
fixed capacities, backing vectors keep their construction lengths), hence
every unchecked access of store, acknowledge, on_packet_arrival and
probe2_arrival is within bounds. -/
theorem C10_index_invariants :
    (∀ SIZE now : Nat, 1 ≤ SIZE → (AckWindow.new SIZE now).WF) ∧
    (∀ (w : AckWindow) (now : Nat) (s d : Int), w.WF → (w.store now s d).WF) ∧
    (∀ (w : AckWindow) (now : Nat) (s : Int), w.WF →
      ((w.acknowledge now s).2).WF) ∧
    (∀ w : AckWindow, w.WF →
      w.head < w.items.length ∧ ∀ i : Nat, i % w.size < w.items.length) ∧
    (∀ a p now : Nat, 1 ≤ a → 1 ≤ p → (PacketTimeWindow.new a p now).WF) ∧
    (∀ (w : PacketTimeWindow) (now : Nat), w.WF →
      (w.on_packet_arrival now).WF ∧ (w.probe2_arrival now).WF ∧
      (w.probe1_arrival now).WF ∧ (w.on_packet_sent now).WF) ∧
    (∀ w : PacketTimeWindow, w.WF →
      w.packet_window_index < w.packet_window.length ∧
      w.probe_window_index < w.probe_window.length) := by
  refine ⟨?_, ?_, ?_, ?_, ?_, ?_, ?_⟩
  · intro SIZE now h
    exact ⟨h, by simp [AckWindow.new, List.length_set], by exact h, by exact h⟩
  · intro w now s d h
    exact (store_WF w now s d h).1
  · intro w now s h
    exact (acknowledge_WF w now s h).1
  · intro w h
    obtain ⟨h1, h2, h3, h4⟩ := h
    exact ⟨by omega, fun i => by
      have := Nat.mod_lt i (show 0 < w.size by omega)
      omega⟩
  · intro a p now ha hp
    exact ⟨ha, hp, by simp [PacketTimeWindow.new], by simp [PacketTimeWindow.new],
      by simpa [PacketTimeWindow.new] using ha,
      by simpa [PacketTimeWindow.new] using hp⟩
  · intro w now h
    obtain ⟨h1, h2, h3, h4, h5, h6⟩ := h
    refine ⟨⟨h1, h2, ?_, h4, Nat.mod_lt _ (by omega), h6⟩,
      ⟨h1, h2, h3, ?_, h5, Nat.mod_lt _ (by omega)⟩,
      ⟨h1, h2, h3, h4, h5, h6⟩, ?_⟩
    · simp [PacketTimeWindow.on_packet_arrival, List.length_set, h3]
    · simp [PacketTimeWindow.probe2_arrival, List.length_set, h4]
    · simp only [PacketTimeWindow.on_packet_sent]
      split_ifs with hc <;> exact ⟨h1, h2, h3, h4, h5, h6⟩
  · intro w h
    obtain ⟨h1, h2, h3, h4, h5, h6⟩ := h
    omega

theorem C10_index_invariants_witness :
    ((AckWindow.new 3 0).store 1 5 6).WF ∧
    ((PacketTimeWindow.new 2 2 0).on_packet_arrival 7).WF :=
  ⟨C10_index_invariants.2.1 (AckWindow.new 3 0) 1 5 6
      (by simp only [AckWindow.WF]; decide),
   (C10_index_invariants.2.2.2.2.2.1 (PacketTimeWindow.new 2 2 0) 7
      (by simp only [PacketTimeWindow.WF]; decide)).1⟩

theorem find?_range'_last (t L : Nat) (p : Nat → Bool) (hL : 1 ≤ L)
    (hlast : p (t + (L - 1)) = true)
    (hbefore : ∀ j, j < L - 1 → p (t + j) = false) :
    (List.range' t L).find? p = some (t + (L - 1)) := by
  have hsplit : List.range' t L = List.range' t (L - 1) ++ [t + (L - 1)] := by
    have hconcat : List.range' t (L - 1 + 1) =
        List.range' t (L - 1) ++ [t + 1 * (L - 1)] :=
      List.range'_concat t (L - 1)
    simp only [one_mul] at hconcat
    rw [show (L - 1) + 1 = L by omega] at hconcat
    exact hconcat
  rw [hsplit, List.find?_append]
  have hnone : (List.range' t (L - 1)).find? p = none := by
    rw [List.find?_eq_none]
    intro x hx
    have hb := List.mem_range'_1.mp hx
    have hx2 : x = t + (x - t) := by omega
    rw [hx2]
    simp [hbefore (x - t) (by omega)]
  rw [hnone, Option.none_or, List.find?_cons_of_pos _ hlast]

/-- C5 amended: when `acknowledge` matches the most recently stored live item,
the window always becomes empty (head = tail), and the full reset to
head = tail = 0 happens exactly in the non wrapped states (tail at most head);
in wrapped states (head below tail) the scan passes the unreduced loop index
to `bump_or_reset`, so instead both cursors become the old head, which is zero
only if head was already zero. -/
theorem C5_acknowledge_newest_amended (w : AckWindow) (now : Nat) (s : Int)
    (hWF : w.WF) (hlive : 1 ≤ w.liveLen)
    (hlast : (w.items.getD ((w.tail + (w.liveLen - 1)) % w.size)
      junkItem).seq_no = s)
    (hbefore : ∀ j, j < w.liveLen - 1 →
      (w.items.getD ((w.tail + j) % w.size) junkItem).seq_no ≠ s) :
    ((w.acknowledge now s).1).isSome = true ∧
    (w.acknowledge now s).2.head = (w.acknowledge now s).2.tail ∧
    (w.tail ≤ w.head →
      (w.acknowledge now s).2.head = 0 ∧ (w.acknowledge now s).2.tail = 0) ∧
    (w.head < w.tail →
      (w.acknowledge now s).2.head = w.head ∧
      (w.acknowledge now s).2.tail = w.head) := by
  obtain ⟨h1, h2, h3, h4⟩ := hWF
  by_cases hbr : w.tail ≤ w.head
  · have hL : w.liveLen = w.head - w.tail := by
      rw [AckWindow.liveLen]
      rw [show w.head + w.size - w.tail = w.size + (w.head - w.tail) by omega]
      rw [Nat.add_mod_left]
      exact Nat.mod_eq_of_lt (by omega)
    have hfind : (List.range' w.tail (w.head - w.tail)).find?
        (fun i => (w.items.getD i junkItem).seq_no == s) =
        some (w.tail + (w.head - w.tail - 1)) := by
      apply find?_range'_last _ _ _ (by omega)
      · have heq := hlast
        rw [hL] at heq
        rw [Nat.mod_eq_of_lt (by omega)] at heq
        simp only [beq_iff_eq]
        exact heq
      · intro j hj
        have hb := hbefore j (by omega)
        rw [Nat.mod_eq_of_lt (by omega)] at hb
        simp only [beq_eq_false_iff_ne, ne_eq]
        exact hb
    rw [AckWindow.acknowledge, if_pos hbr, hfind]
    dsimp only
    rw [AckWindow.bump_or_reset, if_pos (by omega)]
    refine ⟨rfl, rfl, fun _ => ⟨rfl, rfl⟩, fun hcon => absurd hcon (by omega)⟩
  · have hlt : w.head < w.tail := by omega
    have hL : w.liveLen = w.head + w.size - w.tail := by
      rw [AckWindow.liveLen]
      exact Nat.mod_eq_of_lt (by omega)
    have hfind : (List.range' w.tail (w.head + w.size - w.tail)).find?
        (fun i => (w.items.getD (i % w.size) junkItem).seq_no == s) =
        some (w.tail + (w.head + w.size - w.tail - 1)) := by
      apply find?_range'_last _ _ _ (by omega)
      · have heq := hlast
        rw [hL] at heq
        simp only [beq_iff_eq]
        exact heq
      · intro j hj
        have hb := hbefore j (by omega)
        simp only [beq_eq_false_iff_ne, ne_eq]
        exact hb
    rw [AckWindow.acknowledge, if_neg hbr, hfind]
    dsimp only
    rw [AckWindow.bump_or_reset, if_neg (by omega)]
    have htail : (w.tail + (w.head + w.size - w.tail - 1) + 1) % w.size =
        w.head := by
      rw [show w.tail + (w.head + w.size - w.tail - 1) + 1 =
        w.head + w.size by omega]
      rw [Nat.add_mod_right]
      exact Nat.mod_eq_of_lt h3
    refine ⟨rfl, ?_, fun hcon => absurd hcon (by omega), fun _ => ⟨rfl, ?_⟩⟩
    · show w.head = (w.tail + (w.head + w.size - w.tail - 1) + 1) % w.size
      rw [htail]
    · show (w.tail + (w.head + w.size - w.tail - 1) + 1) % w.size = w.head
      rw [htail]

/-- C5 counterexample: acknowledging the most recently stored live item of a
wrapped window (head = 1, tail = 2) matches (it returns data_seq_no 104,
the newest record), yet afterwards head = tail = 1, not head = tail = 0. -/
theorem C5_reset_counterexample :
    wrappedAckWindow.head = 1 ∧ wrappedAckWindow.tail = 2 ∧
    (wrappedAckWindow.acknowledge 5 4).1 = some ⟨104, 5⟩ ∧
    (wrappedAckWindow.acknowledge 5 4).2.head = 1 ∧
    (wrappedAckWindow.acknowledge 5 4).2.tail = 1 := by decide

theorem C5_acknowledge_newest_amended_witness :
    ((wrappedAckWindow.acknowledge 5 4).1).isSome = true ∧
    (wrappedAckWindow.acknowledge 5 4).2.head =
      (wrappedAckWindow.acknowledge 5 4).2.tail :=
  ⟨(C5_acknowledge_newest_amended wrappedAckWindow 5 4
      (by simp only [AckWindow.WF]; decide) (by decide) (by decide)
      (by decide)).1,
   (C5_acknowledge_newest_amended wrappedAckWindow 5 4
      (by simp only [AckWindow.WF]; decide) (by decide) (by decide)
      (by decide)).2.1⟩

theorem mod_two_disj (a S : Nat) (hS : 0 < S) (h : a < 2 * S) :
    (a < S ∧ a % S = a) ∨ (S ≤ a ∧ a % S = a - S) := by
  by_cases hlt : a < S
  · exact Or.inl ⟨hlt, Nat.mod_eq_of_lt hlt⟩
  · refine Or.inr ⟨by omega, ?_⟩
    rw [Nat.mod_eq_sub_mod (by omega)]
    exact Nat.mod_eq_of_lt (by omega)

theorem liveLen_lt (w : AckWindow) (h : 0 < w.size) : w.liveLen < w.size :=
  Nat.mod_lt _ h

theorem liveSeqs_length (w : AckWindow) : w.liveSeqs.length = w.liveLen := by
  simp [AckWindow.liveSeqs]

theorem getD_set_self (l : List AckWindowItem) (i : Nat) (a : AckWindowItem)
    (h : i < l.length) : (l.set i a).getD i junkItem = a := by
  rw [List.getD_eq_getElem?_getD, List.getElem?_set_self',
    List.getElem?_eq_getElem h]
  rfl

theorem getD_set_ne (l : List AckWindowItem) (i j : Nat) (a : AckWindowItem)
    (h : i ≠ j) : (l.set i a).getD j junkItem = l.getD j junkItem := by
  rw [List.getD_eq_getElem?_getD, List.getElem?_set_ne h,
    ← List.getD_eq_getElem?_getD]

theorem liveSeqs_mk (size : Nat) (items : List AckWindowItem)
    (head tail : Nat) :
    (AckWindow.mk size items head tail).liveSeqs =
      (List.range ((head + size - tail) % size)).map
        (fun j => (items.getD ((tail + j) % size) junkItem).seq_no) := rfl

theorem store_liveSeqs (w : AckWindow) (now : Nat) (s d : Int)
    (hWF : w.WF) (hS2 : 2 ≤ w.size) :
    (w.store now s d).liveSeqs =
      (if w.liveLen = w.size - 1 then w.liveSeqs.drop 1 else w.liveSeqs) ++
        [s] := by
  obtain ⟨h1, h2, h3, h4⟩ := hWF
  have hLv : w.liveLen = (w.head + w.size - w.tail) % w.size := rfl
  have hdL := mod_two_disj (w.head + w.size - w.tail) w.size (by omega)
    (by omega)
  have hdH := mod_two_disj (w.head + 1) w.size (by omega) (by omega)
  have hLlt : w.liveLen < w.size := liveLen_lt w (by omega)
  have hth : (w.tail + w.liveLen) % w.size = w.head := by
    have hd2 := mod_two_disj (w.tail + w.liveLen) w.size (by omega) (by omega)
    omega
  have hwseqs : w.liveSeqs = (List.range w.liveLen).map
      (fun j => (w.items.getD ((w.tail + j) % w.size) junkItem).seq_no) := rfl
  by_cases hfull : w.liveLen = w.size - 1
  · have hhead' : (w.head + 1) % w.size = w.tail := by omega
    simp only [AckWindow.store]
    rw [if_pos hhead']
    rw [show ({ w with
        items := w.items.set w.head ⟨now, s, d⟩,
        head := (w.head + 1) % w.size,
        tail := (w.tail + 1) % w.size } : AckWindow) =
      AckWindow.mk w.size (w.items.set w.head ⟨now, s, d⟩)
        ((w.head + 1) % w.size) ((w.tail + 1) % w.size) from rfl]
    rw [liveSeqs_mk, hhead']
    have hdT := mod_two_disj (w.tail + 1) w.size (by omega) (by omega)
    have hLp : (w.tail + w.size - (w.tail + 1) % w.size) % w.size =
        w.size - 1 := by
      have hd3 := mod_two_disj (w.tail + w.size - (w.tail + 1) % w.size)
        w.size (by omega) (by omega)
      omega
    rw [hLp]
    rw [if_pos hfull]
    have hlast : ((w.items.set w.head ⟨now, s, d⟩).getD
        (((w.tail + 1) % w.size + (w.size - 2)) % w.size) junkItem).seq_no =
        s := by
      have hpos : ((w.tail + 1) % w.size + (w.size - 2)) % w.size = w.head := by
        rw [Nat.mod_add_mod]
        have hd4 := mod_two_disj (w.tail + 1 + (w.size - 2)) w.size (by omega)
          (by omega)
        omega
      rw [hpos, getD_set_self _ _ _ (by omega)]
    have hdrop : (w.liveSeqs.drop 1) = (List.range (w.size - 2)).map
        (fun j => (w.items.getD ((w.tail + (j + 1)) % w.size)
          junkItem).seq_no) := by
      rw [hwseqs, show w.liveLen = (w.size - 2) + 1 by omega,
        List.range_succ_eq_map]
      simp [List.map_map]
    rw [hdrop]
    rw [show w.size - 1 = (w.size - 2) + 1 by omega, List.range_succ,
      List.map_append]
    rw [show ((List.map (fun j => ((w.items.set w.head ⟨now, s, d⟩).getD
        (((w.tail + 1) % w.size + j) % w.size) junkItem).seq_no) [w.size - 2])) =
      [s] from by rw [List.map_singleton, hlast]]
    have hmap : (List.range (w.size - 2)).map
        (fun j => ((w.items.set w.head ⟨now, s, d⟩).getD
          (((w.tail + 1) % w.size + j) % w.size) junkItem).seq_no) =
        (List.range (w.size - 2)).map
        (fun j => (w.items.getD ((w.tail + (j + 1)) % w.size)
          junkItem).seq_no) := by
      apply List.map_congr_left
      intro j hj
      have hjlt : j < w.size - 2 := List.mem_range.mp hj
      rw [Nat.mod_add_mod]
      have hd5 := mod_two_disj (w.tail + 1 + j) w.size (by omega) (by omega)
      have hd6 := mod_two_disj (w.tail + (j + 1)) w.size (by omega) (by omega)
      have hne : w.head ≠ (w.tail + 1 + j) % w.size := by omega
      rw [getD_set_ne _ _ _ _ hne]
      rw [show w.tail + 1 + j = w.tail + (j + 1) by omega]
    rw [hmap]
  · have hhead' : (w.head + 1) % w.size ≠ w.tail := by omega
    simp only [AckWindow.store]
    rw [if_neg hhead']
    rw [show ({ w with
        items := w.items.set w.head ⟨now, s, d⟩,
        head := (w.head + 1) % w.size } : AckWindow) =
      AckWindow.mk w.size (w.items.set w.head ⟨now, s, d⟩)
        ((w.head + 1) % w.size) w.tail from rfl]
    rw [liveSeqs_mk]
    have hLp : ((w.head + 1) % w.size + w.size - w.tail) % w.size =
        w.liveLen + 1 := by
      have hd3 := mod_two_disj ((w.head + 1) % w.size + w.size - w.tail)
        w.size (by omega) (by omega)
      omega
    rw [hLp, if_neg hfull]
    rw [List.range_succ, List.map_append]
    have hlast : ((w.items.set w.head ⟨now, s, d⟩).getD
        ((w.tail + w.liveLen) % w.size) junkItem).seq_no = s := by
      rw [hth, getD_set_self _ _ _ (by omega)]
    rw [show ((List.map (fun j => ((w.items.set w.head ⟨now, s, d⟩).getD
        ((w.tail + j) % w.size) junkItem).seq_no) [w.liveLen])) = [s] from by
      rw [List.map_singleton, hlast]]
    have hmap : (List.range w.liveLen).map
        (fun j => ((w.items.set w.head ⟨now, s, d⟩).getD
          ((w.tail + j) % w.size) junkItem).seq_no) =
        (List.range w.liveLen).map
        (fun j => (w.items.getD ((w.tail + j) % w.size) junkItem).seq_no) := by
      apply List.map_congr_left
      intro j hj
      have hjlt : j < w.liveLen := List.mem_range.mp hj
      have hd5 := mod_two_disj (w.tail + j) w.size (by omega) (by omega)
      have hd6 := mod_two_disj (w.tail + w.liveLen) w.size (by omega) (by omega)
      have hne : w.head ≠ (w.tail + j) % w.size := by omega
      rw [getD_set_ne _ _ _ _ hne]
    rw [hmap, hwseqs]

theorem acknowledge_of_not_mem (w : AckWindow) (now : Nat) (s : Int)
    (hWF : w.WF) (h : s ∉ w.liveSeqs) : w.acknowledge now s = (none, w) := by
  obtain ⟨h1, h2, h3, h4⟩ := hWF
  by_cases hbr : w.tail ≤ w.head
  · have hL : w.liveLen = w.head - w.tail := by
      rw [AckWindow.liveLen]
      rw [show w.head + w.size - w.tail = w.size + (w.head - w.tail) by omega]
      rw [Nat.add_mod_left]
      exact Nat.mod_eq_of_lt (by omega)
    have hfind : (List.range' w.tail (w.head - w.tail)).find?
        (fun i => (w.items.getD i junkItem).seq_no == s) = none := by
      rw [List.find?_eq_none]
      intro x hx
      have hb := List.mem_range'_1.mp hx
      have hmem : (w.items.getD ((w.tail + (x - w.tail)) % w.size)
          junkItem).seq_no ∈ w.liveSeqs :=
        List.mem_map_of_mem _ (List.mem_range.mpr (by omega))
      rw [show w.tail + (x - w.tail) = x by omega,
        Nat.mod_eq_of_lt (by omega)] at hmem
      simp only [beq_iff_eq]
      exact fun heq => h (heq ▸ hmem)
    rw [AckWindow.acknowledge, if_pos hbr, hfind]
  · have hL : w.liveLen = w.head + w.size - w.tail := by
      rw [AckWindow.liveLen]
      exact Nat.mod_eq_of_lt (by omega)
    have hfind : (List.range' w.tail (w.head + w.size - w.tail)).find?
        (fun i => (w.items.getD (i % w.size) junkItem).seq_no == s) = none := by
      rw [List.find?_eq_none]
      intro x hx
      have hb := List.mem_range'_1.mp hx
      have hmem : (w.items.getD ((w.tail + (x - w.tail)) % w.size)
          junkItem).seq_no ∈ w.liveSeqs :=
        List.mem_map_of_mem _ (List.mem_range.mpr (by omega))
      rw [show w.tail + (x - w.tail) = x by omega] at hmem
      simp only [beq_iff_eq]
      exact fun heq => h (heq ▸ hmem)
    rw [AckWindow.acknowledge, if_neg hbr, hfind]

theorem storeAll_spec (SIZE now t0 : Nat) (hS : 1 ≤ SIZE)
    (entries : List (Int × Int)) :
    ((AckWindow.new SIZE t0).storeAll now entries).WF ∧
    ((AckWindow.new SIZE t0).storeAll now entries).size = SIZE ∧
    ((AckWindow.new SIZE t0).storeAll now entries).liveSeqs =
      (entries.map Prod.fst).drop (entries.length - (SIZE - 1)) := by
  induction entries using List.reverseRecOn with
  | nil =>
    simp only [AckWindow.storeAll, List.foldl_nil]
    refine ⟨⟨hS, by simp [AckWindow.new], hS, hS⟩, rfl, ?_⟩
    have hz : (AckWindow.new SIZE t0).liveLen = 0 := by
      simp [AckWindow.liveLen, AckWindow.new]
    show (AckWindow.new SIZE t0).liveSeqs = _
    rw [AckWindow.liveSeqs, hz]
    simp
  | append_singleton es e ih =>
    obtain ⟨hWF, hsize, hseqs⟩ := ih
    have hstep : (AckWindow.new SIZE t0).storeAll now (es ++ [e]) =
        ((AckWindow.new SIZE t0).storeAll now es).store now e.1 e.2 := by
      simp [AckWindow.storeAll, List.foldl_append]
    rw [hstep]
    have hsw := store_WF ((AckWindow.new SIZE t0).storeAll now es) now e.1 e.2
      hWF
    refine ⟨hsw.1, by rw [hsw.2, hsize], ?_⟩
    have hLl : ((AckWindow.new SIZE t0).storeAll now es).liveLen =
        es.length - (es.length - (SIZE - 1)) := by
      rw [← liveSeqs_length, hseqs]
      simp [List.length_drop]
    by_cases hS1 : SIZE = 1
    · have hlt := liveLen_lt
        (((AckWindow.new SIZE t0).storeAll now es).store now e.1 e.2)
        (by rw [hsw.2, hsize]; omega)
      rw [hsw.2, hsize] at hlt
      have h0 : (((AckWindow.new SIZE t0).storeAll now es).store now
          e.1 e.2).liveLen = 0 := by omega
      rw [AckWindow.liveSeqs, h0]
      have hrhs : (((es ++ [e]).map Prod.fst).drop
          ((es ++ [e]).length - (SIZE - 1))) = [] := by
        apply List.drop_eq_nil_of_le
        simp [hS1]
      rw [hrhs]
      simp
    · have hS2 : 2 ≤ SIZE := by omega
      rw [store_liveSeqs ((AckWindow.new SIZE t0).storeAll now es) now e.1 e.2
        hWF (by rw [hsize]; omega)]
      rw [hseqs, hsize, hLl]
      by_cases hcase : es.length - (es.length - (SIZE - 1)) = SIZE - 1
      · have hge : SIZE - 1 ≤ es.length := by omega
        rw [if_pos hcase]
        rw [List.drop_drop]
        simp only [List.map_append, List.map_cons, List.map_nil,
          List.length_append, List.length_map, List.length_cons,
          List.length_nil]
        rw [List.drop_append_of_le_length (by simp [List.length_map]; omega)]
        rw [show es.length + (0 + 1) - (SIZE - 1) =
          es.length - (SIZE - 1) + 1 by omega]
      · have hlt2 : es.length < SIZE - 1 := by omega
        rw [if_neg hcase]
        simp only [List.map_append, List.map_cons, List.map_nil,
          List.length_append, List.length_map, List.length_cons,
          List.length_nil]
        rw [show es.length - (SIZE - 1) = 0 by omega,
          show es.length + (0 + 1) - (SIZE - 1) = 0 by omega]
        simp

/-- C9: storing at least SIZE pairwise distinct ACKs on a fresh window leaves
at most SIZE - 1 live items (the oldest are evicted), and acknowledging any
evicted seq_no afterwards finds nothing. -/
theorem C9_ackwindow_eviction (SIZE t0 now now2 : Nat)
    (entries : List (Int × Int)) (hS : 1 ≤ SIZE)
    (hnodup : (entries.map Prod.fst).Nodup) (hlen : SIZE ≤ entries.length) :
    ((AckWindow.new SIZE t0).storeAll now entries).liveLen ≤ SIZE - 1 ∧
    ∀ s ∈ (entries.map Prod.fst).take (entries.length - (SIZE - 1)),
      (((AckWindow.new SIZE t0).storeAll now entries).acknowledge now2 s).1 =
        none := by
  obtain ⟨hWF, hsize, hseqs⟩ := storeAll_spec SIZE now t0 hS entries
  constructor
  · have hlenq := liveSeqs_length ((AckWindow.new SIZE t0).storeAll now entries)
    rw [hseqs] at hlenq
    simp only [List.length_drop, List.length_map] at hlenq
    omega
  · intro s hs
    have hnm : s ∉ ((AckWindow.new SIZE t0).storeAll now entries).liveSeqs := by
      rw [hseqs]
      intro hmem
      have hsplit : entries.map Prod.fst =
          (entries.map Prod.fst).take (entries.length - (SIZE - 1)) ++
          (entries.map Prod.fst).drop (entries.length - (SIZE - 1)) :=
        (List.take_append_drop _ _).symm
      have hnd := hnodup
      rw [hsplit, List.nodup_append] at hnd
      exact hnd.2.2 hs hmem
    rw [acknowledge_of_not_mem _ now2 s hWF hnm]

theorem C9_ackwindow_eviction_witness :
    ((AckWindow.new 3 7).storeAll 0 [(1, 101), (2, 102), (3, 103)]).liveLen ≤
      2 ∧
    (((AckWindow.new 3 7).storeAll 0
      [(1, 101), (2, 102), (3, 103)]).acknowledge 9 1).1 = none :=
  ⟨(C9_ackwindow_eviction 3 7 0 9 [(1, 101), (2, 102), (3, 103)] (by decide)
      (by decide) (by decide)).1,
   (C9_ackwindow_eviction 3 7 0 9 [(1, 101), (2, 102), (3, 103)] (by decide)
      (by decide) (by decide)).2 1 (by decide)⟩

end TinyUdt
